import Mathlib

/-!
# Verification of the isobmff ISO Base Media File Format codec

A shallow embedding of the Rust sources of the `isobmff` repository, together
with theorems settling the specification claims about it.

Byte streams are modelled as `List Nat` (each element one byte, values below
256 whenever produced by the encoders). Machine integers are `Nat` with
explicit `% 2 ^ w` at the points where the Rust code casts (`as u32`) or may
wrap. The repository contains two generations of the codec:

* `src/marshal.rs` — the seek-backpatch variant (`encode_box_header` /
  `update_box_header`): a box is emitted as a 4-byte size placeholder, the
  4-byte type tag and the body, and the placeholder is patched to
  `end - begin` once the body is written.  For a linear in-memory encode this
  is exactly `sizeField (8 + body.length) ++ tag ++ body`, which is how the
  `M.*` encoders below are written.
* `src/box.rs` (string codec duplicated in `src/box/mod.rs`) — the
  size-precomputed variant: every type has an explicit `size()` summed before
  writing.  Modelled by the `B.*` functions.

Rust failure modes are kept apart: an `Err(Error::Io(..))` from a short read
is `MErr.ioErr`, the `Error::InvalidBoxQuantity { type, quantity, expected }`
value is `MErr.quantityErr`, and a process abort (`panic!`, `assert!`,
`assert_eq!`, `unwrap()` on `None`, u32 subtraction overflow, `split_at` out
of range, `todo!()`) is `MErr.panicked`.
-/

namespace Isobmff

/-- Big-endian bytes of a `u16` (`byteorder::WriteBytesExt::write_u16`);
the `% 2 ^ 16` mirrors the Rust `u16` value range / `as u16` casts. -/
def u16be (n : Nat) : List Nat :=
  [n / 256 % 256, n % 256]

/-- Big-endian bytes of a 24-bit value (`write_u24::<BigEndian>`). -/
def u24be (n : Nat) : List Nat :=
  [n / 65536 % 256, n / 256 % 256, n % 256]

/-- Big-endian bytes of a `u32` (`write_u32::<BigEndian>`); the implicit
`% 2 ^ 32` mirrors the Rust `u32` range and the `as u32` casts. -/
def u32be (n : Nat) : List Nat :=
  [n / 16777216 % 256, n / 65536 % 256, n / 256 % 256, n % 256]

/-- Big-endian bytes of a `u64` (`write_u64::<BigEndian>`). -/
def u64be (n : Nat) : List Nat :=
  [n / 72057594037927936 % 256, n / 281474976710656 % 256,
   n / 1099511627776 % 256, n / 4294967296 % 256,
   n / 16777216 % 256, n / 65536 % 256, n / 256 % 256, n % 256]

/-- The `u32` value of four big-endian bytes (`u32::from_be_bytes`). -/
def ofBe4 (a b c d : Nat) : Nat :=
  ((a * 256 + b) * 256 + c) * 256 + d

/-- Failure outcomes of the marshal decoders, keeping Rust's three observable
failure modes apart: `ioErr` is `Error::Io` (short read), `quantityErr` is
`Error::InvalidBoxQuantity { type, quantity, expected }`, and `panicked` is a
process abort (assert/unwrap/overflow/split_at panic), which in Rust never
returns to the caller at all. -/
inductive MErr : Type where
  | ioErr : MErr
  | quantityErr (tag : String) (quantity expected : Nat) : MErr
  | panicked : MErr
deriving DecidableEq, Repr

/-- The decoding monad: a decoder consumes a prefix of the input byte list
and returns the value with the unconsumed remainder, mirroring Rust's
`fn decode(input: &mut &[u8]) -> Result<Self>` cursor discipline. -/
def DecM (α : Type) : Type :=
  List Nat → Except MErr (α × List Nat)

def DecM.pure {α : Type} (a : α) : DecM α :=
  fun input => .ok (a, input)

def DecM.bind {α β : Type} (x : DecM α) (f : α → DecM β) : DecM β :=
  fun input =>
    match x input with
    | .ok (a, rest) => f a rest
    | .error e => .error e

instance : Monad DecM where
  pure := DecM.pure
  bind := DecM.bind

/-- Fail with a given error. -/
def DecM.fail {α : Type} (e : MErr) : DecM α :=
  fun _ => .error e

/-- `read_u8`: one byte, `Error::Io` at end of input. -/
def readU8 : DecM Nat :=
  fun input =>
    match input with
    | [] => .error .ioErr
    | b :: rest => .ok (b, rest)

/-- `read_u16::<BigEndian>`. -/
def readU16 : DecM Nat := do
  let a ← readU8
  let b ← readU8
  pure (a * 256 + b)

/-- `read_u24::<BigEndian>`. -/
def readU24 : DecM Nat := do
  let a ← readU8
  let b ← readU8
  let c ← readU8
  pure ((a * 256 + b) * 256 + c)

/-- `read_u32::<BigEndian>`. -/
def readU32 : DecM Nat := do
  let a ← readU8
  let b ← readU8
  let c ← readU8
  let d ← readU8
  pure (ofBe4 a b c d)

/-- `read_u64::<BigEndian>`. -/
def readU64 : DecM Nat := do
  let hi ← readU32
  let lo ← readU32
  pure (hi * 4294967296 + lo)

/-- `read_exact` into an `n`-byte buffer: `Error::Io` if fewer remain. -/
def readExact (n : Nat) : DecM (List Nat) :=
  fun input =>
    if n ≤ input.length then .ok (input.take n, input.drop n)
    else .error .ioErr

/-- A Rust `assert!`/`assert_eq!`: panics (aborts) when the condition fails. -/
def dassert (b : Bool) : DecM Unit :=
  fun input => if b then .ok ((), input) else .error .panicked

/-- Run a body decoder on a byte slice the way `Decode::decode(&mut data)?`
does inside the box-dispatch loops: the value is kept, any bytes of the
slice it leaves unconsumed are discarded. -/
def runDec {α : Type} (d : DecM α) (data : List Nat) : Except MErr α :=
  match d data with
  | .ok (a, _) => .ok a
  | .error e => .error e

instance {ε α : Type} [DecidableEq ε] [DecidableEq α] : DecidableEq (Except ε α)
  | .ok a, .ok b =>
    if h : a = b then .isTrue (by rw [h])
    else .isFalse (by intro hh; cases hh; exact h rfl)
  | .error a, .error b =>
    if h : a = b then .isTrue (by rw [h])
    else .isFalse (by intro hh; cases hh; exact h rfl)
  | .ok _, .error _ => .isFalse (by intro hh; cases hh)
  | .error _, .ok _ => .isFalse (by intro hh; cases hh)

/-! ## FourCC tags (`u32::from_be_bytes(*b"....")`) -/

def tagFtyp : Nat := 0x66747970
def tagFree : Nat := 0x66726565
def tagMdat : Nat := 0x6D646174
def tagMoov : Nat := 0x6D6F6F76
def tagMvhd : Nat := 0x6D766864
def tagTrak : Nat := 0x7472616B
def tagTkhd : Nat := 0x746B6864
def tagEdts : Nat := 0x65647473
def tagElst : Nat := 0x656C7374
def tagMdia : Nat := 0x6D646961
def tagMdhd : Nat := 0x6D646864
def tagHdlr : Nat := 0x68646C72
def tagMinf : Nat := 0x6D696E66
def tagVmhd : Nat := 0x766D6864
def tagSmhd : Nat := 0x736D6864
def tagDinf : Nat := 0x64696E66
def tagDref : Nat := 0x64726566
def tagUrl : Nat := 0x75726C20
def tagUrn : Nat := 0x75726E20
def tagStbl : Nat := 0x7374626C
def tagStsd : Nat := 0x73747364
def tagStts : Nat := 0x73747473
def tagStss : Nat := 0x73747373
def tagStsz : Nat := 0x7374737A
def tagStsc : Nat := 0x73747363
def tagStco : Nat := 0x7374636F
def tagSbgp : Nat := 0x73626770
def tagAv01 : Nat := 0x61763031
def tagAvc1 : Nat := 0x61766331
def tagMp4a : Nat := 0x6D703461
def tagMeta : Nat := 0x6D657461
def tagIloc : Nat := 0x696C6F63
def tagIsom : Nat := 0x69736F6D
def tagIso2 : Nat := 0x69736F32
def tagMp41 : Nat := 0x6D703431

/-! ## Shared data model

Fixed-point values (`U8F8`, `U16F16`, `U2F30`) are carried as their raw bit
patterns (`to_bits`/`from_bits` are bit-identities in both variants), and
`FourCC` as its `u32` value.  Strings are carried as their UTF-8 byte lists.
-/

/-- The 3×3 transform matrix (`marshal::Matrix`; in `box.rs` the same nine
`u32` words are kept as `matrix: [u32; 9]` in the order a b u c d v x y w). -/
structure Matrix where
  a : Nat
  b : Nat
  u : Nat
  c : Nat
  d : Nat
  v : Nat
  x : Nat
  y : Nat
  w : Nat
deriving DecidableEq, Repr

/-- `Matrix::identity()` (`U16F16!(1)` has bits `0x00010000`, `U2F30!(1)` has
bits `0x40000000`). -/
def Matrix.identity : Matrix :=
  ⟨0x00010000, 0, 0, 0, 0x00010000, 0, 0, 0, 0x40000000⟩

/-- Wire bytes of a matrix (both variants write the nine words in order). -/
def Matrix.encode (m : Matrix) : List Nat :=
  u32be m.a ++ u32be m.b ++ u32be m.u ++ u32be m.c ++ u32be m.d ++
  u32be m.v ++ u32be m.x ++ u32be m.y ++ u32be m.w

/-- `ftyp` payload fields (`marshal::FileTypeBox` = `box::FileType`). -/
structure FileTypeBox where
  major_brand : Nat
  minor_version : Nat
  compatible_brands : List Nat
deriving DecidableEq, Repr

/-- `mdat` payload (`marshal::MediaDataBox` = `box::MediaData`). -/
structure MediaDataBox where
  data : List Nat
deriving DecidableEq, Repr

/-- `mvhd` fields (`marshal::MovieHeaderBox` = `box::MovieHeader`). -/
structure MovieHeaderBox where
  creation_time : Nat
  modification_time : Nat
  timescale : Nat
  duration : Nat
  rate : Nat
  volume : Nat
  matrix : Matrix
  next_track_id : Nat
deriving DecidableEq, Repr

/-- `MovieHeaderBox::default()` (`rate` bits `0x00010000` is `U16F16!(1)`,
`volume` bits `0x0100` is `U8F8!(1)`). -/
def MovieHeaderBox.default : MovieHeaderBox :=
  ⟨0, 0, 0, 0, 0x00010000, 0x0100, Matrix.identity, 0⟩

/-- Optional-field encoding (`impl Encode for Option<T>` in both variants /
the `if let Some(..)` pattern): `None` writes nothing. -/
def optEnc {α : Type} (f : α → List Nat) : Option α → List Nat
  | none => []
  | some a => f a

end Isobmff

namespace Isobmff.M

/-!
## The seek-backpatch variant (`src/marshal.rs`, with the sample entries of
`src/marshal/{av1,avc,aac}.rs`)

`mkBox tag body` is the net effect of `encode_box_header` (4-byte size
placeholder + tag) followed by the body and `update_box_header` (patching the
placeholder with `(end - begin) as u32`): for a linear encode
`end - begin = 8 + body.length`.
-/

/-- `encode_box_header` + body + `update_box_header`. -/
def mkBox (tag : Nat) (body : List Nat) : List Nat :=
  u32be (8 + body.length) ++ u32be tag ++ body

/-- `impl Encode for String` in `marshal.rs`: the bytes followed by one NUL —
unconditionally, also for the empty string. -/
def strEncode (s : List Nat) : List Nat :=
  s ++ [0]

/-- `marshal::TrackHeaderBox`. -/
structure TrackHeaderBox where
  enabled : Bool
  in_movie : Bool
  in_preview : Bool
  creation_time : Nat
  modification_time : Nat
  track_id : Nat
  duration : Nat
  layer : Nat
  alternate_group : Nat
  volume : Nat
  matrix : Matrix
  width : Nat
  height : Nat
deriving DecidableEq, Repr

/-- `marshal::MediaHeaderBox`. -/
structure MediaHeaderBox where
  creation_time : Nat
  modification_time : Nat
  timescale : Nat
  duration : Nat
  language : Nat
deriving DecidableEq, Repr

/-- `marshal::HandlerBox` (`r#type` as its `u32`, `name` as UTF-8 bytes). -/
structure HandlerBox where
  handler_type : Nat
  name : List Nat
deriving DecidableEq, Repr

/-- `marshal::VideoMediaHeaderBox`. -/
structure VideoMediaHeaderBox where
  graphicsmode : Nat
  opcolor0 : Nat
  opcolor1 : Nat
  opcolor2 : Nat
deriving DecidableEq, Repr

/-- `marshal::SoundMediaHeaderBox`. -/
structure SoundMediaHeaderBox where
  balance : Nat
deriving DecidableEq, Repr

/-- `marshal::MediaInformationHeader`. -/
inductive MediaInformationHeader : Type where
  | video (header : VideoMediaHeaderBox)
  | sound (header : SoundMediaHeaderBox)
deriving DecidableEq, Repr

/-- `marshal::VisualSampleEntry` (`compressorname` is the 32-byte array). -/
structure VisualSampleEntry where
  data_reference_index : Nat
  width : Nat
  height : Nat
  horizresolution : Nat
  vertresolution : Nat
  frame_count : Nat
  compressorname : List Nat
  depth : Nat
deriving DecidableEq, Repr

/-- `marshal::AudioSampleEntry`. -/
structure AudioSampleEntry where
  data_reference_index : Nat
  channelcount : Nat
  samplesize : Nat
  samplerate : Nat
deriving DecidableEq, Repr

/-- `marshal::SampleDescriptionBox` with the three codec sample entries
(`AV1SampleEntry`, `AVCSampleEntry`, `AACSampleEntry` are one-field wrappers
around the base entries). -/
inductive SampleDescriptionBox : Type where
  | av1 (base : VisualSampleEntry)
  | avc (base : VisualSampleEntry)
  | aac (base : AudioSampleEntry)
deriving DecidableEq, Repr

/-- `marshal::TimeToSampleEntry`. -/
structure TimeToSampleEntry where
  sample_count : Nat
  sample_delta : Nat
deriving DecidableEq, Repr

/-- `marshal::TimeToSampleBox`. -/
structure TimeToSampleBox where
  entries : List TimeToSampleEntry
deriving DecidableEq, Repr

/-- `marshal::SyncSampleBox`. -/
structure SyncSampleBox where
  entries : List Nat
deriving DecidableEq, Repr

/-- `marshal::SampleSizeBox`. -/
inductive SampleSizeBox : Type where
  | value (sample_size sample_count : Nat)
  | perSample (samples : List Nat)
deriving DecidableEq, Repr

/-- `marshal::SampleToChunkEntry`. -/
structure SampleToChunkEntry where
  first_chunk : Nat
  samples_per_chunk : Nat
  sample_description_index : Nat
deriving DecidableEq, Repr

/-- `marshal::SampleToChunkBox`. -/
structure SampleToChunkBox where
  entries : List SampleToChunkEntry
deriving DecidableEq, Repr

/-- `marshal::ChunkOffsetBox`. -/
structure ChunkOffsetBox where
  entries : List Nat
deriving DecidableEq, Repr

/-- `marshal::SampleToGroupEntry`. -/
structure SampleToGroupEntry where
  sample_count : Nat
  group_description_index : Nat
deriving DecidableEq, Repr

/-- `marshal::SampleToGroupBox` (grouping type FourCC and entries). -/
structure SampleToGroupBox where
  grouping_type : Nat
  entries : List SampleToGroupEntry
deriving DecidableEq, Repr

/-- `marshal::EditListEntry` (`media_rate` as its `U16F16` bits). -/
structure EditListEntry where
  segment_duration : Nat
  media_time : Nat
  media_rate : Nat
deriving DecidableEq, Repr

/-- `marshal::EditListBox`. -/
structure EditListBox where
  entries : List EditListEntry
deriving DecidableEq, Repr

/-- `marshal::EditBox`. -/
structure EditBox where
  edit_list : Option EditListBox
deriving DecidableEq, Repr

/-- `marshal::DataEntryUrlBox`. -/
structure DataEntryUrlBox where
  location : Option (List Nat)
deriving DecidableEq, Repr

/-- `marshal::DataEntryUrnBox`. -/
structure DataEntryUrnBox where
  name : List Nat
  location : List Nat
deriving DecidableEq, Repr

/-- `marshal::DataEntry`. -/
inductive DataEntry : Type where
  | url (entry : DataEntryUrlBox)
  | urn (entry : DataEntryUrnBox)
deriving DecidableEq, Repr

/-- `marshal::DataReferenceBox`. -/
structure DataReferenceBox where
  entries : List DataEntry
deriving DecidableEq, Repr

/-- `marshal::DataInformationBox`. -/
structure DataInformationBox where
  reference : DataReferenceBox
deriving DecidableEq, Repr

/-- `marshal::SampleTableBox`. -/
structure SampleTableBox where
  description : SampleDescriptionBox
  time_to_sample : TimeToSampleBox
  sync_sample : Option SyncSampleBox
  sample_size : SampleSizeBox
  sample_to_chunk : SampleToChunkBox
  chunk_offset : ChunkOffsetBox
  sample_to_group : Option SampleToGroupBox
deriving DecidableEq, Repr

/-- `marshal::MediaInformationBox`. -/
structure MediaInformationBox where
  header : MediaInformationHeader
  data_information : DataInformationBox
  sample_table : SampleTableBox
deriving DecidableEq, Repr

/-- `marshal::MediaBox`. -/
structure MediaBox where
  header : MediaHeaderBox
  handler : HandlerBox
  information : MediaInformationBox
deriving DecidableEq, Repr

/-- `marshal::TrackBox`. -/
structure TrackBox where
  header : TrackHeaderBox
  media : MediaBox
  edit : Option EditBox
deriving DecidableEq, Repr

/-- `marshal::MovieBox`. -/
structure MovieBox where
  header : MovieHeaderBox
  tracks : List TrackBox
deriving DecidableEq, Repr

/-- `marshal::ItemLocationEntryExtent`. -/
structure ItemLocationEntryExtent where
  extent_offset : Nat
  extent_length : Nat
deriving DecidableEq, Repr

/-- `marshal::ItemLocationEntry`. -/
structure ItemLocationEntry where
  item_id : Nat
  data_reference_index : Nat
  base_offset : Nat
  extents : List ItemLocationEntryExtent
deriving DecidableEq, Repr

/-- `marshal::ItemLocationBox`. -/
structure ItemLocationBox where
  items : List ItemLocationEntry
deriving DecidableEq, Repr

/-- `marshal::MetaBox`. -/
structure MetaBox where
  handler : HandlerBox
  item_location : Option ItemLocationBox
deriving DecidableEq, Repr

/-- `marshal::File`. -/
structure File where
  file_type : FileTypeBox
  movie : Option MovieBox
  media_data : List MediaDataBox
  meta : Option MetaBox
deriving DecidableEq, Repr

/-! ### marshal encoders -/

/-- `FileTypeBox::encode`. -/
def FileTypeBox.encode (b : FileTypeBox) : List Nat :=
  mkBox tagFtyp
    (u32be b.major_brand ++ u32be b.minor_version ++
     (b.compatible_brands.map u32be).flatten)

/-- `MediaDataBox::encode`. -/
def MediaDataBox.encode (b : MediaDataBox) : List Nat :=
  mkBox tagMdat b.data

/-- Body of `MovieHeaderBox::encode`: version 0 is always written and the
64-bit time/duration fields are truncated by `as u32` casts. -/
def mvhdBody (h : MovieHeaderBox) : List Nat :=
  [0] ++ u24be 0 ++
  u32be h.creation_time ++ u32be h.modification_time ++
  u32be h.timescale ++ u32be h.duration ++
  u32be h.rate ++ u16be h.volume ++
  u16be 0 ++ u32be 0 ++ u32be 0 ++
  h.matrix.encode ++
  u32be 0 ++ u32be 0 ++ u32be 0 ++ u32be 0 ++ u32be 0 ++ u32be 0 ++
  u32be h.next_track_id

/-- `MovieHeaderBox::encode`. -/
def MovieHeaderBox.encode (h : MovieHeaderBox) : List Nat :=
  mkBox tagMvhd (mvhdBody h)

/-- `TrackHeaderBox::encode` (version 0, flag bits 1/2/4, `as u32` casts). -/
def TrackHeaderBox.encode (h : TrackHeaderBox) : List Nat :=
  mkBox tagTkhd
    ([0] ++
     u24be ((if h.enabled then 1 else 0) |||
            (if h.in_movie then 2 else 0) |||
            (if h.in_preview then 4 else 0)) ++
     u32be h.creation_time ++ u32be h.modification_time ++
     u32be h.track_id ++ u32be 0 ++ u32be h.duration ++
     u32be 0 ++ u32be 0 ++
     u16be h.layer ++ u16be h.alternate_group ++ u16be h.volume ++ u16be 0 ++
     h.matrix.encode ++ u32be h.width ++ u32be h.height)

/-- `MediaHeaderBox::encode` (version 0, `as u32` casts). -/
def MediaHeaderBox.encode (h : MediaHeaderBox) : List Nat :=
  mkBox tagMdhd
    ([0] ++ u24be 0 ++
     u32be h.creation_time ++ u32be h.modification_time ++
     u32be h.timescale ++ u32be h.duration ++
     u16be h.language ++ u16be 0)

/-- `HandlerBox::encode`. -/
def HandlerBox.encode (h : HandlerBox) : List Nat :=
  mkBox tagHdlr
    ([0] ++ u24be 0 ++
     u32be 0 ++ u32be h.handler_type ++
     u32be 0 ++ u32be 0 ++ u32be 0 ++
     strEncode h.name)

/-- `VideoMediaHeaderBox::encode` (note: flags are written as 1). -/
def VideoMediaHeaderBox.encode (h : VideoMediaHeaderBox) : List Nat :=
  mkBox tagVmhd
    ([0] ++ u24be 1 ++
     u16be h.graphicsmode ++
     u16be h.opcolor0 ++ u16be h.opcolor1 ++ u16be h.opcolor2)

/-- `SoundMediaHeaderBox::encode`. -/
def SoundMediaHeaderBox.encode (h : SoundMediaHeaderBox) : List Nat :=
  mkBox tagSmhd ([0] ++ u24be 0 ++ u16be h.balance ++ u16be 0)

/-- `VisualSampleEntry::encode` (no box header of its own). -/
def VisualSampleEntry.encode (e : VisualSampleEntry) : List Nat :=
  [0, 0, 0, 0, 0, 0] ++ u16be e.data_reference_index ++
  u16be 0 ++ u16be 0 ++ u32be 0 ++ u32be 0 ++ u32be 0 ++
  u16be e.width ++ u16be e.height ++
  u32be e.horizresolution ++ u32be e.vertresolution ++
  u32be 0 ++ u16be e.frame_count ++
  e.compressorname ++
  u16be e.depth ++ u16be 65535

/-- `AudioSampleEntry::encode`. -/
def AudioSampleEntry.encode (e : AudioSampleEntry) : List Nat :=
  [0, 0, 0, 0, 0, 0] ++ u16be e.data_reference_index ++
  u32be 0 ++ u32be 0 ++
  u16be e.channelcount ++ u16be e.samplesize ++
  u16be 0 ++ u16be 0 ++
  u32be e.samplerate

/-- `SampleDescriptionBox::encode`: the source writes only the version/flags
and `entry_count = 1` — the entry itself is never written. The wrapped
sample-entry encoders (`AV1SampleEntry::encode` etc., each `mkBox` around
the base entry) are unreachable from tree encoding. -/
def SampleDescriptionBox.encode (_ : SampleDescriptionBox) : List Nat :=
  mkBox tagStsd ([0] ++ u24be 0 ++ u32be 1)

/-- `TimeToSampleBox::encode`. -/
def TimeToSampleBox.encode (b : TimeToSampleBox) : List Nat :=
  mkBox tagStts
    ([0] ++ u24be 0 ++ u32be b.entries.length ++
     (b.entries.map fun e => u32be e.sample_count ++ u32be e.sample_delta).flatten)

/-- `SyncSampleBox::encode`. -/
def SyncSampleBox.encode (b : SyncSampleBox) : List Nat :=
  mkBox tagStss
    ([0] ++ u24be 0 ++ u32be b.entries.length ++ (b.entries.map u32be).flatten)

/-- `SampleSizeBox::encode`. -/
def SampleSizeBox.encode (b : SampleSizeBox) : List Nat :=
  mkBox tagStsz
    ([0] ++ u24be 0 ++
     match b with
     | .value sample_size sample_count => u32be sample_size ++ u32be sample_count
     | .perSample samples =>
         u32be 0 ++ u32be samples.length ++ (samples.map u32be).flatten)

/-- `SampleToChunkBox::encode`. -/
def SampleToChunkBox.encode (b : SampleToChunkBox) : List Nat :=
  mkBox tagStsc
    ([0] ++ u24be 0 ++ u32be b.entries.length ++
     (b.entries.map fun e =>
        u32be e.first_chunk ++ u32be e.samples_per_chunk ++
        u32be e.sample_description_index).flatten)

/-- `ChunkOffsetBox::encode`. -/
def ChunkOffsetBox.encode (b : ChunkOffsetBox) : List Nat :=
  mkBox tagStco
    ([0] ++ u24be 0 ++ u32be b.entries.length ++ (b.entries.map u32be).flatten)

/-- `SampleToGroupBox::encode`. -/
def SampleToGroupBox.encode (b : SampleToGroupBox) : List Nat :=
  mkBox tagSbgp
    ([0] ++ u24be 0 ++ u32be b.grouping_type ++ u32be b.entries.length ++
     (b.entries.map fun e =>
        u32be e.sample_count ++ u32be e.group_description_index).flatten)

/-- Body of `EditListBox::encode`: version 0 is always written and the
64-bit `segment_duration`/`media_time` fields are truncated by `as u32`. -/
def elstBody (b : EditListBox) : List Nat :=
  [0] ++ u24be 0 ++ u32be b.entries.length ++
  (b.entries.map fun e =>
     u32be e.segment_duration ++ u32be e.media_time ++ u32be e.media_rate).flatten

/-- `EditListBox::encode`. -/
def EditListBox.encode (b : EditListBox) : List Nat :=
  mkBox tagElst (elstBody b)

/-- `EditBox::encode`. -/
def EditBox.encode (b : EditBox) : List Nat :=
  mkBox tagEdts (optEnc EditListBox.encode b.edit_list)

/-- `DataEntryUrlBox::encode` (flag bit 1 when no location follows). -/
def DataEntryUrlBox.encode (b : DataEntryUrlBox) : List Nat :=
  mkBox tagUrl
    ([0] ++ u24be (if b.location.isNone then 1 else 0) ++
     optEnc strEncode b.location)

/-- `DataEntryUrnBox::encode`. -/
def DataEntryUrnBox.encode (b : DataEntryUrnBox) : List Nat :=
  mkBox tagUrn ([0] ++ u24be 0 ++ strEncode b.name ++ strEncode b.location)

/-- `DataEntry` dispatch inside `DataReferenceBox::encode`. -/
def DataEntry.encode : DataEntry → List Nat
  | .url entry => entry.encode
  | .urn entry => entry.encode

/-- `DataReferenceBox::encode`. -/
def DataReferenceBox.encode (b : DataReferenceBox) : List Nat :=
  mkBox tagDref
    ([0] ++ u24be 0 ++ u32be b.entries.length ++
     (b.entries.map DataEntry.encode).flatten)

/-- `DataInformationBox::encode`. -/
def DataInformationBox.encode (b : DataInformationBox) : List Nat :=
  mkBox tagDinf b.reference.encode

/-- `SampleTableBox::encode` (child order as in the source). -/
def SampleTableBox.encode (b : SampleTableBox) : List Nat :=
  mkBox tagStbl
    (b.description.encode ++ b.time_to_sample.encode ++
     optEnc SyncSampleBox.encode b.sync_sample ++
     b.sample_size.encode ++ b.sample_to_chunk.encode ++
     b.chunk_offset.encode ++
     optEnc SampleToGroupBox.encode b.sample_to_group)

/-- `MediaInformationBox::encode`. -/
def MediaInformationBox.encode (b : MediaInformationBox) : List Nat :=
  mkBox tagMinf
    ((match b.header with
      | .video header => header.encode
      | .sound header => header.encode) ++
     b.data_information.encode ++ b.sample_table.encode)

/-- `MediaBox::encode`. -/
def MediaBox.encode (b : MediaBox) : List Nat :=
  mkBox tagMdia (b.header.encode ++ b.handler.encode ++ b.information.encode)

/-- `TrackBox::encode`. -/
def TrackBox.encode (b : TrackBox) : List Nat :=
  mkBox tagTrak
    (b.header.encode ++ b.media.encode ++ optEnc EditBox.encode b.edit)

/-- `MovieBox::encode`. -/
def MovieBox.encode (b : MovieBox) : List Nat :=
  mkBox tagMoov (MovieHeaderBox.encode b.header ++ (b.tracks.map TrackBox.encode).flatten)

/-- `ItemLocationBox::encode`: the source writes only version/flags. -/
def ItemLocationBox.encode (_ : ItemLocationBox) : List Nat :=
  mkBox tagIloc ([0] ++ u24be 0)

/-- `MetaBox::encode`. -/
def MetaBox.encode (b : MetaBox) : List Nat :=
  mkBox tagMeta
    ([0] ++ u24be 0 ++ b.handler.encode ++
     optEnc ItemLocationBox.encode b.item_location)

/-- `File::encode` (marshal variant): `ftyp`, then the movie box if present,
then the media-data boxes, then the meta box if present — no `free` box. -/
def File.encode (f : File) : List Nat :=
  FileTypeBox.encode f.file_type ++ optEnc MovieBox.encode f.movie ++
  (f.media_data.map MediaDataBox.encode).flatten ++
  optEnc MetaBox.encode f.meta

/-! ### marshal decoders

`decodeBoxesFuel` is the `decode_boxes!` macro's loop: read `(size, type)`,
slice `size - 4 - 4` bytes off the remaining input (`split_at`), dispatch the
slice by type tag, and continue until the input is exhausted.  A `u32`
subtraction overflow (`size < 8`) or an out-of-range `split_at` is a Rust
panic, modelled as `MErr.panicked`.  The fuel argument only bounds the
recursion for Lean's termination checker; it is always called with
`input.length`, and since every iteration consumes at least 8 bytes the
exhausted-fuel case is unreachable (see `decodeBoxesFuel_fuel_irrelevant`
style arguments via `decodeBoxes`). -/
def decodeBoxesFuel {σ : Type}
    (dispatch : Nat → List Nat → σ → Except MErr σ) :
    Nat → List Nat → σ → Except MErr σ
  | _, [], s => .ok s
  | 0, _ :: _, _ => .error .panicked
  | fuel + 1, a :: b :: c :: d :: t0 :: t1 :: t2 :: t3 :: rest, s =>
    let size := ofBe4 a b c d
    let t := ofBe4 t0 t1 t2 t3
    if size < 8 then .error .panicked
    else if rest.length < size - 8 then .error .panicked
    else
      match dispatch t (rest.take (size - 8)) s with
      | .error e => .error e
      | .ok s' => decodeBoxesFuel dispatch fuel (rest.drop (size - 8)) s'
  | _, _ :: _, _ => .error .ioErr

/-- The `decode_boxes!` loop on a full input slice. -/
def decodeBoxes {σ : Type}
    (dispatch : Nat → List Nat → σ → Except MErr σ)
    (input : List Nat) (s : σ) : Except MErr σ :=
  decodeBoxesFuel dispatch input.length input s

/-- Lift a finished `Except` computation into the decoding monad. -/
def liftE {α : Type} : Except MErr α → DecM α
  | .ok a => DecM.pure a
  | .error e => DecM.fail e

/-- The `let (data, remaining) = input.split_at((size - 4 - 4) as usize)`
step used inside `SampleDescriptionBox::decode` and
`DataReferenceBox::decode`: yields the `size - 8` byte slice, panicking on
`u32` underflow or an out-of-range split. -/
def splitSlice (size : Nat) : DecM (List Nat) :=
  fun input =>
    if size < 8 then .error .panicked
    else if input.length < size - 8 then .error .panicked
    else .ok (input.take (size - 8), input.drop (size - 8))

/-- `impl Decode for String` in `marshal.rs`: find the first NUL
(`position(..).unwrap()` — panics when there is none), split there.  Note the
terminator byte itself is left in the input: `split_at(length)` puts it at
the head of `remaining_data`. -/
def strDecode : DecM (List Nat) :=
  fun input =>
    match input.findIdx? (fun c => c == 0) with
    | none => .error .panicked
    | some length => .ok (input.take length, input.drop length)

/-- `impl Decode for Matrix`. -/
def Matrix.decode : DecM Matrix := do
  let a ← readU32
  let b ← readU32
  let u ← readU32
  let c ← readU32
  let d ← readU32
  let v ← readU32
  let x ← readU32
  let y ← readU32
  let w ← readU32
  pure ⟨a, b, u, c, d, v, x, y, w⟩

/-- `MovieHeaderBox::decode` (body): version byte selects 32/64-bit time
fields, any other version panics; the reserved words are `assert_eq!`ed. -/
def MovieHeaderBox.decode : DecM MovieHeaderBox := do
  let version ← readU8
  let _flags ← readU24
  let times ←
    if version = 0 then do
      let creation_time ← readU32
      let modification_time ← readU32
      let timescale ← readU32
      let duration ← readU32
      pure (creation_time, modification_time, timescale, duration)
    else if version = 1 then do
      let creation_time ← readU64
      let modification_time ← readU64
      let timescale ← readU32
      let duration ← readU64
      pure (creation_time, modification_time, timescale, duration)
    else DecM.fail .panicked
  let rate ← readU32
  let volume ← readU16
  let r1 ← readU16
  dassert (r1 == 0)
  let r2 ← readU32
  dassert (r2 == 0)
  let r3 ← readU32
  dassert (r3 == 0)
  let matrix ← Matrix.decode
  let p1 ← readU32
  dassert (p1 == 0)
  let p2 ← readU32
  dassert (p2 == 0)
  let p3 ← readU32
  dassert (p3 == 0)
  let p4 ← readU32
  dassert (p4 == 0)
  let p5 ← readU32
  dassert (p5 == 0)
  let p6 ← readU32
  dassert (p6 == 0)
  let next_track_id ← readU32
  pure ⟨times.1, times.2.1, times.2.2.1, times.2.2.2, rate, volume, matrix,
        next_track_id⟩

/-- `TrackHeaderBox::decode` (body). -/
def TrackHeaderBox.decode : DecM TrackHeaderBox := do
  let version ← readU8
  let flags ← readU24
  let fields ←
    if version = 0 then do
      let creation_time ← readU32
      let modification_time ← readU32
      let track_id ← readU32
      let r0 ← readU32
      dassert (r0 == 0)
      let duration ← readU32
      pure (creation_time, modification_time, track_id, duration)
    else if version = 1 then do
      let creation_time ← readU64
      let modification_time ← readU64
      let track_id ← readU32
      let r0 ← readU32
      dassert (r0 == 0)
      let duration ← readU64
      pure (creation_time, modification_time, track_id, duration)
    else DecM.fail .panicked
  let r1 ← readU32
  dassert (r1 == 0)
  let r2 ← readU32
  dassert (r2 == 0)
  let layer ← readU16
  let alternate_group ← readU16
  let volume ← readU16
  let r3 ← readU16
  dassert (r3 == 0)
  let matrix ← Matrix.decode
  let width ← readU32
  let height ← readU32
  pure ⟨flags &&& 1 != 0, flags &&& 2 != 0, flags &&& 4 != 0,
        fields.1, fields.2.1, fields.2.2.1, fields.2.2.2,
        layer, alternate_group, volume, matrix, width, height⟩

/-- `MediaHeaderBox::decode` (body). -/
def MediaHeaderBox.decode : DecM MediaHeaderBox := do
  let version ← readU8
  let _flags ← readU24
  let times ←
    if version = 0 then do
      let creation_time ← readU32
      let modification_time ← readU32
      let timescale ← readU32
      let duration ← readU32
      pure (creation_time, modification_time, timescale, duration)
    else if version = 1 then do
      let creation_time ← readU64
      let modification_time ← readU64
      let timescale ← readU32
      let duration ← readU64
      pure (creation_time, modification_time, timescale, duration)
    else DecM.fail .panicked
  let language ← readU16
  let p ← readU16
  dassert (p == 0)
  pure ⟨times.1, times.2.1, times.2.2.1, times.2.2.2, language⟩

/-- `HandlerBox::decode` (body): the version byte is `assert_eq!`ed. -/
def HandlerBox.decode : DecM HandlerBox := do
  let version ← readU8
  dassert (version == 0)
  let _flags ← readU24
  let p ← readU32
  dassert (p == 0)
  let handler_type ← readU32
  let r1 ← readU32
  dassert (r1 == 0)
  let r2 ← readU32
  dassert (r2 == 0)
  let r3 ← readU32
  dassert (r3 == 0)
  let name ← strDecode
  pure ⟨handler_type, name⟩

/-- `VideoMediaHeaderBox::decode` (body). -/
def VideoMediaHeaderBox.decode : DecM VideoMediaHeaderBox := do
  let version ← readU8
  dassert (version == 0)
  let _flags ← readU24
  let graphicsmode ← readU16
  let opcolor0 ← readU16
  let opcolor1 ← readU16
  let opcolor2 ← readU16
  pure ⟨graphicsmode, opcolor0, opcolor1, opcolor2⟩

/-- `SoundMediaHeaderBox::decode` (body). -/
def SoundMediaHeaderBox.decode : DecM SoundMediaHeaderBox := do
  let version ← readU8
  dassert (version == 0)
  let _flags ← readU24
  let balance ← readU16
  let r ← readU16
  dassert (r == 0)
  pure ⟨balance⟩

/-- `VisualSampleEntry::decode`. -/
def VisualSampleEntry.decode : DecM VisualSampleEntry := do
  let b1 ← readU8
  dassert (b1 == 0)
  let b2 ← readU8
  dassert (b2 == 0)
  let b3 ← readU8
  dassert (b3 == 0)
  let b4 ← readU8
  dassert (b4 == 0)
  let b5 ← readU8
  dassert (b5 == 0)
  let b6 ← readU8
  dassert (b6 == 0)
  let data_reference_index ← readU16
  let p1 ← readU16
  dassert (p1 == 0)
  let r1 ← readU16
  dassert (r1 == 0)
  let p2 ← readU32
  dassert (p2 == 0)
  let p3 ← readU32
  dassert (p3 == 0)
  let p4 ← readU32
  dassert (p4 == 0)
  let width ← readU16
  let height ← readU16
  let horizresolution ← readU32
  let vertresolution ← readU32
  let r2 ← readU32
  dassert (r2 == 0)
  let frame_count ← readU16
  let compressorname ← readExact 32
  let depth ← readU16
  let p5 ← readU16
  dassert (p5 == 65535)
  pure ⟨data_reference_index, width, height, horizresolution, vertresolution,
        frame_count, compressorname, depth⟩

/-- `AudioSampleEntry::decode`. -/
def AudioSampleEntry.decode : DecM AudioSampleEntry := do
  let b1 ← readU8
  dassert (b1 == 0)
  let b2 ← readU8
  dassert (b2 == 0)
  let b3 ← readU8
  dassert (b3 == 0)
  let b4 ← readU8
  dassert (b4 == 0)
  let b5 ← readU8
  dassert (b5 == 0)
  let b6 ← readU8
  dassert (b6 == 0)
  let data_reference_index ← readU16
  let r1 ← readU32
  dassert (r1 == 0)
  let r2 ← readU32
  dassert (r2 == 0)
  let channelcount ← readU16
  let samplesize ← readU16
  let p1 ← readU16
  dassert (p1 == 0)
  let r3 ← readU16
  dassert (r3 == 0)
  let samplerate ← readU32
  pure ⟨data_reference_index, channelcount, samplesize, samplerate⟩

/-- `SampleDescriptionBox::decode`: `entry_count` is `assert_eq!`ed to 1, one
`(size, type)` header is read and the slice dispatched to the AV1/AVC/AAC
sample-entry decoders (each of which just decodes its base entry); an
unrecognized entry type leaves `entry == None` and the final `unwrap()`
panics. -/
def SampleDescriptionBox.decode : DecM SampleDescriptionBox := do
  let version ← readU8
  dassert (version == 0)
  let _flags ← readU24
  let entry_count ← readU32
  dassert (entry_count == 1)
  let size ← readU32
  let t ← readU32
  let data ← splitSlice size
  if t = tagAv01 then do
    let base ← liftE (runDec VisualSampleEntry.decode data)
    pure (.av1 base)
  else if t = tagAvc1 then do
    let base ← liftE (runDec VisualSampleEntry.decode data)
    pure (.avc base)
  else if t = tagMp4a then do
    let base ← liftE (runDec AudioSampleEntry.decode data)
    pure (.aac base)
  else DecM.fail .panicked

/-- A `for _ in 0..entry_count` decode loop. -/
def decodeCount {α : Type} (item : DecM α) : Nat → DecM (List α)
  | 0 => DecM.pure []
  | n + 1 => do
    let a ← item
    let rest ← decodeCount item n
    pure (a :: rest)

/-- `TimeToSampleBox::decode` (body). -/
def TimeToSampleBox.decode : DecM TimeToSampleBox := do
  let version ← readU8
  dassert (version == 0)
  let _flags ← readU24
  let entry_count ← readU32
  let entries ← decodeCount
    (do
      let sample_count ← readU32
      let sample_delta ← readU32
      pure (⟨sample_count, sample_delta⟩ : TimeToSampleEntry))
    entry_count
  pure ⟨entries⟩

/-- `SyncSampleBox::decode` (body). -/
def SyncSampleBox.decode : DecM SyncSampleBox := do
  let version ← readU8
  dassert (version == 0)
  let _flags ← readU24
  let entry_count ← readU32
  let entries ← decodeCount readU32 entry_count
  pure ⟨entries⟩

/-- `SampleSizeBox::decode` (body). -/
def SampleSizeBox.decode : DecM SampleSizeBox := do
  let version ← readU8
  dassert (version == 0)
  let _flags ← readU24
  let sample_size ← readU32
  let sample_count ← readU32
  if sample_size ≠ 0 then
    pure (.value sample_size sample_count)
  else do
    let samples ← decodeCount readU32 sample_count
    pure (.perSample samples)

/-- `SampleToChunkBox::decode` (body). -/
def SampleToChunkBox.decode : DecM SampleToChunkBox := do
  let version ← readU8
  dassert (version == 0)
  let _flags ← readU24
  let entry_count ← readU32
  let entries ← decodeCount
    (do
      let first_chunk ← readU32
      let samples_per_chunk ← readU32
      let sample_description_index ← readU32
      pure (⟨first_chunk, samples_per_chunk, sample_description_index⟩ :
              SampleToChunkEntry))
    entry_count
  pure ⟨entries⟩

/-- `ChunkOffsetBox::decode` (body). -/
def ChunkOffsetBox.decode : DecM ChunkOffsetBox := do
  let version ← readU8
  dassert (version == 0)
  let _flags ← readU24
  let entry_count ← readU32
  let entries ← decodeCount readU32 entry_count
  pure ⟨entries⟩

/-- `SampleToGroupBox::decode` (body). -/
def SampleToGroupBox.decode : DecM SampleToGroupBox := do
  let version ← readU8
  dassert (version == 0)
  let _flags ← readU24
  let grouping_type ← readU32
  let entry_count ← readU32
  let entries ← decodeCount
    (do
      let sample_count ← readU32
      let group_description_index ← readU32
      pure (⟨sample_count, group_description_index⟩ : SampleToGroupEntry))
    entry_count
  pure ⟨grouping_type, entries⟩

/-- One `elst` entry at a given version (the Rust `match version` sits inside
the entry loop; any version other than 0/1 panics). -/
def elstEntry (version : Nat) : DecM EditListEntry := do
  let times ←
    if version = 0 then do
      let segment_duration ← readU32
      let media_time ← readU32
      pure (segment_duration, media_time)
    else if version = 1 then do
      let segment_duration ← readU64
      let media_time ← readU64
      pure (segment_duration, media_time)
    else DecM.fail .panicked
  let media_rate ← readU32
  pure ⟨times.1, times.2, media_rate⟩

/-- `EditListBox::decode` (body). -/
def EditListBox.decode : DecM EditListBox := do
  let version ← readU8
  let _flags ← readU24
  let entry_count ← readU32
  let entries ← decodeCount (elstEntry version) entry_count
  pure ⟨entries⟩

/-- `EditBox::decode` dispatch (`optional elst edit_list`). -/
def editDispatch : Nat → List Nat → Option EditListBox →
    Except MErr (Option EditListBox)
  | t, data, s =>
    if t = tagElst then
      match s with
      | some _ => .error (.quantityErr "elst" 2 1)
      | none =>
        match runDec EditListBox.decode data with
        | .error e => .error e
        | .ok b => .ok (some b)
    else .ok s

/-- `EditBox::decode` (body). -/
def EditBox.decode : DecM EditBox :=
  fun input =>
    match decodeBoxes editDispatch input none with
    | .error e => .error e
    | .ok edit_list => .ok (⟨edit_list⟩, [])

/-- `DataEntryUrlBox::decode` (body): flag bit 1 means self-contained, no
location string follows. -/
def DataEntryUrlBox.decode : DecM DataEntryUrlBox := do
  let version ← readU8
  dassert (version == 0)
  let flags ← readU24
  if flags &&& 1 = 0 then do
    let location ← strDecode
    pure ⟨some location⟩
  else
    pure ⟨none⟩

/-- `DataEntryUrnBox::decode` (body): two consecutive NUL-terminated
strings. -/
def DataEntryUrnBox.decode : DecM DataEntryUrnBox := do
  let version ← readU8
  dassert (version == 0)
  let _flags ← readU24
  let name ← strDecode
  let location ← strDecode
  pure ⟨name, location⟩

/-- The `for _ in 0..entry_count` loop of `DataReferenceBox::decode`: each
iteration reads a `(size, type)` header, slices the body, and pushes a
decoded `url `/`urn ` entry (unknown types are skipped). -/
def drefEntries : Nat → DecM (List DataEntry)
  | 0 => DecM.pure []
  | n + 1 => do
    let size ← readU32
    let t ← readU32
    let data ← splitSlice size
    if t = tagUrl then do
      let e ← liftE (runDec DataEntryUrlBox.decode data)
      let rest ← drefEntries n
      pure (.url e :: rest)
    else if t = tagUrn then do
      let e ← liftE (runDec DataEntryUrnBox.decode data)
      let rest ← drefEntries n
      pure (.urn e :: rest)
    else drefEntries n

/-- `DataReferenceBox::decode` (body). -/
def DataReferenceBox.decode : DecM DataReferenceBox := do
  let version ← readU8
  dassert (version == 0)
  let _flags ← readU24
  let entry_count ← readU32
  let entries ← drefEntries entry_count
  pure ⟨entries⟩

/-- `DataInformationBox::decode` dispatch (`required dref reference`). -/
def dinfDispatch : Nat → List Nat → Option DataReferenceBox →
    Except MErr (Option DataReferenceBox)
  | t, data, s =>
    if t = tagDref then
      match s with
      | some _ => .error (.quantityErr "dref" 2 1)
      | none =>
        match runDec DataReferenceBox.decode data with
        | .error e => .error e
        | .ok b => .ok (some b)
    else .ok s

/-- `DataInformationBox::decode` (body). -/
def DataInformationBox.decode : DecM DataInformationBox :=
  fun input =>
    match decodeBoxes dinfDispatch input none with
    | .error e => .error e
    | .ok reference =>
      match reference with
      | none => .error (.quantityErr "dref" 0 1)
      | some r => .ok (⟨r⟩, [])

/-- State of the `SampleTableBox::decode` loop: the seven slots in
declaration order. -/
structure StblState where
  description : Option SampleDescriptionBox
  time_to_sample : Option TimeToSampleBox
  sync_sample : Option SyncSampleBox
  sample_size : Option SampleSizeBox
  sample_to_chunk : Option SampleToChunkBox
  chunk_offset : Option ChunkOffsetBox
  sample_to_group : Option SampleToGroupBox

/-- `SampleTableBox::decode` dispatch. -/
def stblDispatch : Nat → List Nat → StblState → Except MErr StblState
  | t, data, s =>
    if t = tagStsd then
      match s.description with
      | some _ => .error (.quantityErr "stsd" 2 1)
      | none =>
        match runDec SampleDescriptionBox.decode data with
        | .error e => .error e
        | .ok b => .ok { s with description := some b }
    else if t = tagStts then
      match s.time_to_sample with
      | some _ => .error (.quantityErr "stts" 2 1)
      | none =>
        match runDec TimeToSampleBox.decode data with
        | .error e => .error e
        | .ok b => .ok { s with time_to_sample := some b }
    else if t = tagStss then
      match s.sync_sample with
      | some _ => .error (.quantityErr "stss" 2 1)
      | none =>
        match runDec SyncSampleBox.decode data with
        | .error e => .error e
        | .ok b => .ok { s with sync_sample := some b }
    else if t = tagStsz then
      match s.sample_size with
      | some _ => .error (.quantityErr "stsz" 2 1)
      | none =>
        match runDec SampleSizeBox.decode data with
        | .error e => .error e
        | .ok b => .ok { s with sample_size := some b }
    else if t = tagStsc then
      match s.sample_to_chunk with
      | some _ => .error (.quantityErr "stsc" 2 1)
      | none =>
        match runDec SampleToChunkBox.decode data with
        | .error e => .error e
        | .ok b => .ok { s with sample_to_chunk := some b }
    else if t = tagStco then
      match s.chunk_offset with
      | some _ => .error (.quantityErr "stco" 2 1)
      | none =>
        match runDec ChunkOffsetBox.decode data with
        | .error e => .error e
        | .ok b => .ok { s with chunk_offset := some b }
    else if t = tagSbgp then
      match s.sample_to_group with
      | some _ => .error (.quantityErr "sbgp" 2 1)
      | none =>
        match runDec SampleToGroupBox.decode data with
        | .error e => .error e
        | .ok b => .ok { s with sample_to_group := some b }
    else .ok s

/-- `SampleTableBox::decode` (body): loop, then the `required` unwraps in
declaration order. -/
def SampleTableBox.decode : DecM SampleTableBox :=
  fun input =>
    match decodeBoxes stblDispatch input ⟨none, none, none, none, none, none, none⟩ with
    | .error e => .error e
    | .ok s =>
      match s.description with
      | none => .error (.quantityErr "stsd" 0 1)
      | some description =>
        match s.time_to_sample with
        | none => .error (.quantityErr "stts" 0 1)
        | some time_to_sample =>
          match s.sample_size with
          | none => .error (.quantityErr "stsz" 0 1)
          | some sample_size =>
            match s.sample_to_chunk with
            | none => .error (.quantityErr "stsc" 0 1)
            | some sample_to_chunk =>
              match s.chunk_offset with
              | none => .error (.quantityErr "stco" 0 1)
              | some chunk_offset =>
                .ok (⟨description, time_to_sample, s.sync_sample, sample_size,
                      sample_to_chunk, chunk_offset, s.sample_to_group⟩, [])

/-- State of the `MediaInformationBox::decode` loop. -/
structure MinfState where
  video_header : Option VideoMediaHeaderBox
  sound_header : Option SoundMediaHeaderBox
  data_information : Option DataInformationBox
  sample_table : Option SampleTableBox

/-- `MediaInformationBox::decode` dispatch. -/
def minfDispatch : Nat → List Nat → MinfState → Except MErr MinfState
  | t, data, s =>
    if t = tagVmhd then
      match s.video_header with
      | some _ => .error (.quantityErr "vmhd" 2 1)
      | none =>
        match runDec VideoMediaHeaderBox.decode data with
        | .error e => .error e
        | .ok b => .ok { s with video_header := some b }
    else if t = tagSmhd then
      match s.sound_header with
      | some _ => .error (.quantityErr "smhd" 2 1)
      | none =>
        match runDec SoundMediaHeaderBox.decode data with
        | .error e => .error e
        | .ok b => .ok { s with sound_header := some b }
    else if t = tagDinf then
      match s.data_information with
      | some _ => .error (.quantityErr "dinf" 2 1)
      | none =>
        match runDec DataInformationBox.decode data with
        | .error e => .error e
        | .ok b => .ok { s with data_information := some b }
    else if t = tagStbl then
      match s.sample_table with
      | some _ => .error (.quantityErr "stbl" 2 1)
      | none =>
        match runDec SampleTableBox.decode data with
        | .error e => .error e
        | .ok b => .ok { s with sample_table := some b }
    else .ok s

/-- `MediaInformationBox::decode` (body): loop, `required` unwraps for
`dinf`/`stbl`, then the vmhd/smhd selection whose fall-through is a
`todo!()` panic. -/
def MediaInformationBox.decode : DecM MediaInformationBox :=
  fun input =>
    match decodeBoxes minfDispatch input ⟨none, none, none, none⟩ with
    | .error e => .error e
    | .ok s =>
      match s.data_information with
      | none => .error (.quantityErr "dinf" 0 1)
      | some data_information =>
        match s.sample_table with
        | none => .error (.quantityErr "stbl" 0 1)
        | some sample_table =>
          match s.video_header with
          | some video_header =>
            .ok (⟨.video video_header, data_information, sample_table⟩, [])
          | none =>
            match s.sound_header with
            | some sound_header =>
              .ok (⟨.sound sound_header, data_information, sample_table⟩, [])
            | none => .error .panicked

/-- `MediaBox::decode` dispatch. -/
def mdiaDispatch : Nat → List Nat →
    (Option MediaHeaderBox × Option HandlerBox × Option MediaInformationBox) →
    Except MErr
      (Option MediaHeaderBox × Option HandlerBox × Option MediaInformationBox)
  | t, data, s =>
    if t = tagMdhd then
      match s.1 with
      | some _ => .error (.quantityErr "mdhd" 2 1)
      | none =>
        match runDec MediaHeaderBox.decode data with
        | .error e => .error e
        | .ok b => .ok (some b, s.2.1, s.2.2)
    else if t = tagHdlr then
      match s.2.1 with
      | some _ => .error (.quantityErr "hdlr" 2 1)
      | none =>
        match runDec HandlerBox.decode data with
        | .error e => .error e
        | .ok b => .ok (s.1, some b, s.2.2)
    else if t = tagMinf then
      match s.2.2 with
      | some _ => .error (.quantityErr "minf" 2 1)
      | none =>
        match runDec MediaInformationBox.decode data with
        | .error e => .error e
        | .ok b => .ok (s.1, s.2.1, some b)
    else .ok s

/-- `MediaBox::decode` (body). -/
def MediaBox.decode : DecM MediaBox :=
  fun input =>
    match decodeBoxes mdiaDispatch input (none, none, none) with
    | .error e => .error e
    | .ok s =>
      match s.1 with
      | none => .error (.quantityErr "mdhd" 0 1)
      | some header =>
        match s.2.1 with
        | none => .error (.quantityErr "hdlr" 0 1)
        | some handler =>
          match s.2.2 with
          | none => .error (.quantityErr "minf" 0 1)
          | some information => .ok (⟨header, handler, information⟩, [])

/-- `TrackBox::decode` dispatch. -/
def trakDispatch : Nat → List Nat →
    (Option TrackHeaderBox × Option MediaBox × Option EditBox) →
    Except MErr (Option TrackHeaderBox × Option MediaBox × Option EditBox)
  | t, data, s =>
    if t = tagTkhd then
      match s.1 with
      | some _ => .error (.quantityErr "tkhd" 2 1)
      | none =>
        match runDec TrackHeaderBox.decode data with
        | .error e => .error e
        | .ok b => .ok (some b, s.2.1, s.2.2)
    else if t = tagMdia then
      match s.2.1 with
      | some _ => .error (.quantityErr "mdia" 2 1)
      | none =>
        match runDec MediaBox.decode data with
        | .error e => .error e
        | .ok b => .ok (s.1, some b, s.2.2)
    else if t = tagEdts then
      match s.2.2 with
      | some _ => .error (.quantityErr "edts" 2 1)
      | none =>
        match runDec EditBox.decode data with
        | .error e => .error e
        | .ok b => .ok (s.1, s.2.1, some b)
    else .ok s

/-- `TrackBox::decode` (body). -/
def TrackBox.decode : DecM TrackBox :=
  fun input =>
    match decodeBoxes trakDispatch input (none, none, none) with
    | .error e => .error e
    | .ok s =>
      match s.1 with
      | none => .error (.quantityErr "tkhd" 0 1)
      | some header =>
        match s.2.1 with
        | none => .error (.quantityErr "mdia" 0 1)
        | some media => .ok (⟨header, media, s.2.2⟩, [])

/-- `MovieBox::decode` dispatch: `required mvhd header, multiple trak
tracks` — a second `mvhd` is the `InvalidBoxQuantity { "mvhd", 2, 1 }`
error, while `trak` children are simply appended with no count check. -/
def moovDispatch : Nat → List Nat →
    (Option MovieHeaderBox × List TrackBox) →
    Except MErr (Option MovieHeaderBox × List TrackBox)
  | t, data, s =>
    if t = tagMvhd then
      match s.1 with
      | some _ => .error (.quantityErr "mvhd" 2 1)
      | none =>
        match runDec MovieHeaderBox.decode data with
        | .error e => .error e
        | .ok b => .ok (some b, s.2)
    else if t = tagTrak then
      match runDec TrackBox.decode data with
      | .error e => .error e
      | .ok b => .ok (s.1, s.2 ++ [b])
    else .ok s

/-- `MovieBox::decode` (body): only the `mvhd` slot is `required`; the track
list is returned as accumulated, empty or not. -/
def MovieBox.decode : DecM MovieBox :=
  fun input =>
    match decodeBoxes moovDispatch input (none, []) with
    | .error e => .error e
    | .ok s =>
      match s.1 with
      | none => .error (.quantityErr "mvhd" 0 1)
      | some header => .ok (⟨header, s.2⟩, [])

end Isobmff.M

namespace Isobmff.B

/-!
## The size-precomputed variant (`src/box.rs`; its string codec is duplicated
verbatim in `src/box/mod.rs`)

Every type carries an explicit `size()` that is written first, followed by
the type tag and the body — no seeks.  Only the encode direction is needed by
the claims; the shared field structures (`FileTypeBox`, `MovieHeaderBox`,
`MediaDataBox`, `Matrix`) are reused where the two variants' Rust structs
have identical fields.
-/

/-- `impl Encode for String::size` in `box.rs`/`box/mod.rs`: 0 for the empty
string, length + 1 (for the NUL) otherwise. -/
def strSize (s : List Nat) : Nat :=
  if s = [] then 0 else s.length + 1

/-- `impl Encode for String::encode` in `box.rs`/`box/mod.rs`: nothing for
the empty string, the bytes plus one NUL otherwise. -/
def strEncode (s : List Nat) : List Nat :=
  if s = [] then [] else s ++ [0]

/-- `box::FileType::size`. -/
def FileType.size (b : FileTypeBox) : Nat :=
  4 + 4 + 4 + 4 + b.compatible_brands.length * 4

/-- `box::FileType::encode`. -/
def FileType.encode (b : FileTypeBox) : List Nat :=
  u32be (FileType.size b) ++ u32be tagFtyp ++
  u32be b.major_brand ++ u32be b.minor_version ++
  (b.compatible_brands.map u32be).flatten

/-- `box::MediaData::size`. -/
def MediaData.size (b : MediaDataBox) : Nat :=
  4 + 4 + b.data.length

/-- `box::MediaData::encode`. -/
def MediaData.encode (b : MediaDataBox) : List Nat :=
  u32be (MediaData.size b) ++ u32be tagMdat ++ b.data

/-- `box::MovieHeader::size` (a constant: version-0 layout only). -/
def MovieHeader.size (_ : MovieHeaderBox) : Nat :=
  4 + 4 + 1 + 3 + 4 + 4 + 4 + 4 + 4 + 2 + 2 + 2 * 4 + 9 * 4 + 6 * 4 + 4

/-- `box::MovieHeader::encode` (version 0 always; `as u32` truncations).
The `matrix: [u32; 9]` array is iterated in the order a b u c d v x y w. -/
def MovieHeader.encode (h : MovieHeaderBox) : List Nat :=
  u32be (MovieHeader.size h) ++ u32be tagMvhd ++
  [0] ++ u24be 0 ++
  u32be h.creation_time ++ u32be h.modification_time ++
  u32be h.timescale ++ u32be h.duration ++
  u32be h.rate ++ u16be h.volume ++
  u16be 0 ++ u32be 0 ++ u32be 0 ++
  h.matrix.encode ++
  u32be 0 ++ u32be 0 ++ u32be 0 ++ u32be 0 ++ u32be 0 ++ u32be 0 ++
  u32be h.next_track_id

/-- `box::TrackHeader` (no flag booleans in this variant). -/
structure TrackHeader where
  creation_time : Nat
  modification_time : Nat
  track_id : Nat
  duration : Nat
  layer : Nat
  alternate_group : Nat
  volume : Nat
  matrix : Matrix
  width : Nat
  height : Nat
deriving DecidableEq, Repr

/-- `box::TrackHeader::size`. -/
def TrackHeader.size (_ : TrackHeader) : Nat :=
  4 + 4 + 1 + 3 + 4 + 4 + 4 + 4 + 4 + 4 + 4 + 2 + 2 + 2 + 2 + 9 * 4 + 4 + 4

/-- `box::TrackHeader::encode`. -/
def TrackHeader.encode (h : TrackHeader) : List Nat :=
  u32be (TrackHeader.size h) ++ u32be tagTkhd ++
  [0] ++ u24be 0 ++
  u32be h.creation_time ++ u32be h.modification_time ++
  u32be h.track_id ++ u32be 0 ++ u32be h.duration ++
  u32be 0 ++ u32be 0 ++
  u16be h.layer ++ u16be h.alternate_group ++ u16be h.volume ++ u16be 0 ++
  h.matrix.encode ++
  u32be h.width ++ u32be h.height

/-- `box::MediaHeader` (`language` as its packed `u16`). -/
structure MediaHeader where
  creation_time : Nat
  modification_time : Nat
  timescale : Nat
  duration : Nat
  language : Nat
deriving DecidableEq, Repr

/-- `box::MediaHeader::size`. -/
def MediaHeader.size (_ : MediaHeader) : Nat :=
  4 + 4 + 1 + 3 + 4 + 4 + 4 + 4 + 2 + 2

/-- `box::MediaHeader::encode`. -/
def MediaHeader.encode (h : MediaHeader) : List Nat :=
  u32be (MediaHeader.size h) ++ u32be tagMdhd ++
  [0] ++ u24be 0 ++
  u32be h.creation_time ++ u32be h.modification_time ++
  u32be h.timescale ++ u32be h.duration ++
  u16be h.language ++ u16be 0

/-- `box::Handler`. -/
structure Handler where
  handler_type : Nat
  name : List Nat
deriving DecidableEq, Repr

/-- `box::Handler::size`. -/
def Handler.size (h : Handler) : Nat :=
  4 + 4 + 1 + 3 + 4 + 4 + 4 + 4 + 4 + strSize h.name

/-- `box::Handler::encode`. -/
def Handler.encode (h : Handler) : List Nat :=
  u32be (Handler.size h) ++ u32be tagHdlr ++
  [0] ++ u24be 0 ++
  u32be 0 ++ u32be h.handler_type ++
  u32be 0 ++ u32be 0 ++ u32be 0 ++
  strEncode h.name

/-- `box::VideoMediaHeader`. -/
structure VideoMediaHeader where
  graphicsmode : Nat
  opcolor0 : Nat
  opcolor1 : Nat
  opcolor2 : Nat
deriving DecidableEq, Repr

/-- `box::VideoMediaHeader::size`. -/
def VideoMediaHeader.size (_ : VideoMediaHeader) : Nat :=
  4 + 4 + 1 + 3 + 2 + 3 * 2

/-- `box::VideoMediaHeader::encode` (flags written as 0 in this variant). -/
def VideoMediaHeader.encode (h : VideoMediaHeader) : List Nat :=
  u32be (VideoMediaHeader.size h) ++ u32be tagVmhd ++
  [0] ++ u24be 0 ++
  u16be h.graphicsmode ++
  u16be h.opcolor0 ++ u16be h.opcolor1 ++ u16be h.opcolor2

/-- `box::SoundMediaHeader`. -/
structure SoundMediaHeader where
  balance : Nat
deriving DecidableEq, Repr

/-- `box::SoundMediaHeader::size`. -/
def SoundMediaHeader.size (_ : SoundMediaHeader) : Nat :=
  4 + 4 + 1 + 3 + 2 + 2

/-- `box::SoundMediaHeader::encode`. -/
def SoundMediaHeader.encode (h : SoundMediaHeader) : List Nat :=
  u32be (SoundMediaHeader.size h) ++ u32be tagSmhd ++
  [0] ++ u24be 0 ++ u16be h.balance ++ u16be 0

/-- `box::MediaInformationHeader`. -/
inductive MediaInformationHeader : Type where
  | video (header : VideoMediaHeader)
  | sound (header : SoundMediaHeader)
deriving DecidableEq, Repr

/-- `box::DataEntryUrl` (the location is not optional in this variant). -/
structure DataEntryUrl where
  location : List Nat
deriving DecidableEq, Repr

/-- `box::DataEntryUrl::size`. -/
def DataEntryUrl.size (b : DataEntryUrl) : Nat :=
  4 + 4 + 1 + 3 + strSize b.location

/-- `box::DataEntryUrl::encode` (flags written as 0). -/
def DataEntryUrl.encode (b : DataEntryUrl) : List Nat :=
  u32be (DataEntryUrl.size b) ++ u32be tagUrl ++
  [0] ++ u24be 0 ++ strEncode b.location

/-- `box::DataEntryUrn`. -/
structure DataEntryUrn where
  name : List Nat
  location : List Nat
deriving DecidableEq, Repr

/-- `box::DataEntryUrn::size`. -/
def DataEntryUrn.size (b : DataEntryUrn) : Nat :=
  4 + 4 + 1 + 3 + strSize b.name + strSize b.location

/-- `box::DataEntryUrn::encode`. -/
def DataEntryUrn.encode (b : DataEntryUrn) : List Nat :=
  u32be (DataEntryUrn.size b) ++ u32be tagUrn ++
  [0] ++ u24be 0 ++ strEncode b.name ++ strEncode b.location

/-- `box::DataEntry`. -/
inductive DataEntry : Type where
  | url (entry : DataEntryUrl)
  | urn (entry : DataEntryUrn)
deriving DecidableEq, Repr

/-- The per-entry size dispatch inside `box::DataReference::size`. -/
def DataEntry.size : DataEntry → Nat
  | .url entry => DataEntryUrl.size entry
  | .urn entry => DataEntryUrn.size entry

/-- The per-entry encode dispatch inside `box::DataReference::encode`. -/
def DataEntry.encode : DataEntry → List Nat
  | .url entry => DataEntryUrl.encode entry
  | .urn entry => DataEntryUrn.encode entry

/-- `box::DataReference`. -/
structure DataReference where
  entries : List DataEntry
deriving DecidableEq, Repr

/-- `box::DataReference::size`. -/
def DataReference.size (b : DataReference) : Nat :=
  4 + 4 + 1 + 3 + 4 + (b.entries.map DataEntry.size).sum

/-- `box::DataReference::encode`. -/
def DataReference.encode (b : DataReference) : List Nat :=
  u32be (DataReference.size b) ++ u32be tagDref ++
  [0] ++ u24be 0 ++ u32be b.entries.length ++
  (b.entries.map DataEntry.encode).flatten

/-- `box::DataInformation`. -/
structure DataInformation where
  reference : DataReference
deriving DecidableEq, Repr

/-- `box::DataInformation::size`. -/
def DataInformation.size (b : DataInformation) : Nat :=
  4 + 4 + DataReference.size b.reference

/-- `box::DataInformation::encode`. -/
def DataInformation.encode (b : DataInformation) : List Nat :=
  u32be (DataInformation.size b) ++ u32be tagDinf ++
  DataReference.encode b.reference

/-- `box::TimeToSample` (entries `(sample_count, sample_delta)`). -/
structure TimeToSample where
  entries : List (Nat × Nat)
deriving DecidableEq, Repr

/-- `box::TimeToSample::size`. -/
def TimeToSample.size (b : TimeToSample) : Nat :=
  4 + 4 + 1 + 3 + 4 + b.entries.length * (4 + 4)

/-- `box::TimeToSample::encode`. -/
def TimeToSample.encode (b : TimeToSample) : List Nat :=
  u32be (TimeToSample.size b) ++ u32be tagStts ++
  [0] ++ u24be 0 ++ u32be b.entries.length ++
  (b.entries.map fun e => u32be e.1 ++ u32be e.2).flatten

/-- `box::VisualSampleEntry` (with the trailing opaque `extra` blob). -/
structure VisualSampleEntry where
  data_reference_index : Nat
  width : Nat
  height : Nat
  horizresolution : Nat
  vertresolution : Nat
  frame_count : Nat
  compressorname : List Nat
  depth : Nat
  extra : List Nat
deriving DecidableEq, Repr

/-- `box::VisualSampleEntry::size`. -/
def VisualSampleEntry.size (e : VisualSampleEntry) : Nat :=
  4 + 4 + 6 * 1 + 2 + 2 + 2 + 3 * 4 + 2 + 2 + 4 + 4 + 4 + 2 + 32 + 2 + 2 +
  e.extra.length

/-- `box::VisualSampleEntry::encode` (the tag is hardcoded `avc1`). -/
def VisualSampleEntry.encode (e : VisualSampleEntry) : List Nat :=
  u32be (VisualSampleEntry.size e) ++ u32be tagAvc1 ++
  [0, 0, 0, 0, 0, 0] ++ u16be e.data_reference_index ++
  u16be 0 ++ u16be 0 ++ u32be 0 ++ u32be 0 ++ u32be 0 ++
  u16be e.width ++ u16be e.height ++
  u32be e.horizresolution ++ u32be e.vertresolution ++
  u32be 0 ++ u16be e.frame_count ++
  e.compressorname ++
  u16be e.depth ++ u16be 65535 ++
  e.extra

/-- `box::AudioSampleEntry`. -/
structure AudioSampleEntry where
  data_reference_index : Nat
  channelcount : Nat
  samplesize : Nat
  samplerate : Nat
  extra : List Nat
deriving DecidableEq, Repr

/-- `box::AudioSampleEntry::size`. -/
def AudioSampleEntry.size (e : AudioSampleEntry) : Nat :=
  4 + 4 + 6 * 1 + 2 + 2 * 4 + 2 + 2 + 2 + 2 + 4 + e.extra.length

/-- `box::AudioSampleEntry::encode` (the tag is hardcoded `mp4a`). -/
def AudioSampleEntry.encode (e : AudioSampleEntry) : List Nat :=
  u32be (AudioSampleEntry.size e) ++ u32be tagMp4a ++
  [0, 0, 0, 0, 0, 0] ++ u16be e.data_reference_index ++
  u32be 0 ++ u32be 0 ++
  u16be e.channelcount ++ u16be e.samplesize ++
  u16be 0 ++ u16be 0 ++
  u32be e.samplerate ++
  e.extra

/-- `box::SampleDescription` (optional `avc1` and `mp4a` slots). -/
structure SampleDescription where
  avc1 : Option VisualSampleEntry
  mp4a : Option AudioSampleEntry
deriving DecidableEq, Repr

/-- `box::SampleDescription::size`. -/
def SampleDescription.size (b : SampleDescription) : Nat :=
  4 + 4 + 1 + 3 + 4 +
  (match b.avc1 with | none => 0 | some e => VisualSampleEntry.size e) +
  (match b.mp4a with | none => 0 | some e => AudioSampleEntry.size e)

/-- `box::SampleDescription::encode` (`entry_count` is hardwired to 1). -/
def SampleDescription.encode (b : SampleDescription) : List Nat :=
  u32be (SampleDescription.size b) ++ u32be tagStsd ++
  [0] ++ u24be 0 ++ u32be 1 ++
  optEnc VisualSampleEntry.encode b.avc1 ++
  optEnc AudioSampleEntry.encode b.mp4a

/-- `box::SampleSize`. -/
inductive SampleSize : Type where
  | global (sample_size : Nat)
  | unique (samples : List Nat)
deriving DecidableEq, Repr

/-- `box::SampleSize::size`. -/
def SampleSize.size : SampleSize → Nat
  | .global _ => 4 + 4 + 1 + 3 + 4 + 4
  | .unique samples => 4 + 4 + 1 + 3 + 4 + 4 + samples.length * 4

/-- `box::SampleSize::encode`. -/
def SampleSize.encode (b : SampleSize) : List Nat :=
  u32be (SampleSize.size b) ++ u32be tagStsz ++
  [0] ++ u24be 0 ++
  match b with
  | .global sample_size => u32be sample_size ++ u32be 0
  | .unique samples =>
      u32be 0 ++ u32be samples.length ++ (samples.map u32be).flatten

/-- `box::SampleToChunk` (entries `(first_chunk, samples_per_chunk,
sample_description_index)`). -/
structure SampleToChunk where
  entries : List (Nat × Nat × Nat)
deriving DecidableEq, Repr

/-- `box::SampleToChunk::size`. -/
def SampleToChunk.size (b : SampleToChunk) : Nat :=
  4 + 4 + 1 + 3 + 4 + b.entries.length * (4 + 4 + 4)

/-- `box::SampleToChunk::encode`. -/
def SampleToChunk.encode (b : SampleToChunk) : List Nat :=
  u32be (SampleToChunk.size b) ++ u32be tagStsc ++
  [0] ++ u24be 0 ++ u32be b.entries.length ++
  (b.entries.map fun e => u32be e.1 ++ u32be e.2.1 ++ u32be e.2.2).flatten

/-- `box::ChunkOffset`. -/
structure ChunkOffset where
  entries : List Nat
deriving DecidableEq, Repr

/-- `box::ChunkOffset::size`. -/
def ChunkOffset.size (b : ChunkOffset) : Nat :=
  4 + 4 + 1 + 3 + 4 + b.entries.length * 4

/-- `box::ChunkOffset::encode`. -/
def ChunkOffset.encode (b : ChunkOffset) : List Nat :=
  u32be (ChunkOffset.size b) ++ u32be tagStco ++
  [0] ++ u24be 0 ++ u32be b.entries.length ++ (b.entries.map u32be).flatten

/-- `box::SyncSample`. -/
structure SyncSample where
  entries : List Nat
deriving DecidableEq, Repr

/-- `box::SyncSample::size`. -/
def SyncSample.size (b : SyncSample) : Nat :=
  4 + 4 + 1 + 3 + 4 + b.entries.length * 4

/-- `box::SyncSample::encode`. -/
def SyncSample.encode (b : SyncSample) : List Nat :=
  u32be (SyncSample.size b) ++ u32be tagStss ++
  [0] ++ u24be 0 ++ u32be b.entries.length ++ (b.entries.map u32be).flatten

/-- `box::SampleToGroup`. -/
structure SampleToGroup where
  grouping_type : Nat
  entries : List (Nat × Nat)
deriving DecidableEq, Repr

/-- `box::SampleToGroup::size`. -/
def SampleToGroup.size (b : SampleToGroup) : Nat :=
  4 + 4 + 1 + 3 + 4 + 4 + b.entries.length * (4 + 4)

/-- `box::SampleToGroup::encode`. -/
def SampleToGroup.encode (b : SampleToGroup) : List Nat :=
  u32be (SampleToGroup.size b) ++ u32be tagSbgp ++
  [0] ++ u24be 0 ++ u32be b.grouping_type ++ u32be b.entries.length ++
  (b.entries.map fun e => u32be e.1 ++ u32be e.2).flatten

/-- `box::SampleTable` (note the child order differs from the marshal
variant: `stsc` precedes `stsz`, and `stss` follows `stco`). -/
structure SampleTable where
  description : SampleDescription
  time_to_sample : TimeToSample
  sample_to_chunk : SampleToChunk
  sample_size : SampleSize
  chunk_offset : ChunkOffset
  sync_sample : Option SyncSample
  sample_to_group : Option SampleToGroup
deriving DecidableEq, Repr

/-- `box::SampleTable::size`. -/
def SampleTable.size (b : SampleTable) : Nat :=
  4 + 4 +
  SampleDescription.size b.description +
  TimeToSample.size b.time_to_sample +
  SampleToChunk.size b.sample_to_chunk +
  SampleSize.size b.sample_size +
  ChunkOffset.size b.chunk_offset +
  (match b.sync_sample with | none => 0 | some s => SyncSample.size s) +
  (match b.sample_to_group with | none => 0 | some s => SampleToGroup.size s)

/-- `box::SampleTable::encode`. -/
def SampleTable.encode (b : SampleTable) : List Nat :=
  u32be (SampleTable.size b) ++ u32be tagStbl ++
  SampleDescription.encode b.description ++
  TimeToSample.encode b.time_to_sample ++
  SampleToChunk.encode b.sample_to_chunk ++
  SampleSize.encode b.sample_size ++
  ChunkOffset.encode b.chunk_offset ++
  optEnc SyncSample.encode b.sync_sample ++
  optEnc SampleToGroup.encode b.sample_to_group

/-- `box::MediaInformation`. -/
structure MediaInformation where
  header : MediaInformationHeader
  data_information : DataInformation
  sample_table : SampleTable
deriving DecidableEq, Repr

/-- `box::MediaInformation::size`. -/
def MediaInformation.size (b : MediaInformation) : Nat :=
  4 + 4 +
  (match b.header with
   | .video header => VideoMediaHeader.size header
   | .sound header => SoundMediaHeader.size header) +
  DataInformation.size b.data_information +
  SampleTable.size b.sample_table

/-- `box::MediaInformation::encode`. -/
def MediaInformation.encode (b : MediaInformation) : List Nat :=
  u32be (MediaInformation.size b) ++ u32be tagMinf ++
  (match b.header with
   | .video header => VideoMediaHeader.encode header
   | .sound header => SoundMediaHeader.encode header) ++
  DataInformation.encode b.data_information ++
  SampleTable.encode b.sample_table

/-- `box::Media`. -/
structure Media where
  header : MediaHeader
  handler : Handler
  information : MediaInformation
deriving DecidableEq, Repr

/-- `box::Media::size`. -/
def Media.size (b : Media) : Nat :=
  4 + 4 + MediaHeader.size b.header + Handler.size b.handler +
  MediaInformation.size b.information

/-- `box::Media::encode`. -/
def Media.encode (b : Media) : List Nat :=
  u32be (Media.size b) ++ u32be tagMdia ++
  MediaHeader.encode b.header ++ Handler.encode b.handler ++
  MediaInformation.encode b.information

/-- `box::EditList` (entries `(segment_duration, media_time, media_rate)` —
all 32-bit in this variant). -/
structure EditList where
  entries : List (Nat × Nat × Nat)
deriving DecidableEq, Repr

/-- `box::EditList::size`. -/
def EditList.size (b : EditList) : Nat :=
  4 + 4 + 1 + 3 + 4 + b.entries.length * (4 + 4 + 4)

/-- `box::EditList::encode`. -/
def EditList.encode (b : EditList) : List Nat :=
  u32be (EditList.size b) ++ u32be tagElst ++
  [0] ++ u24be 0 ++ u32be b.entries.length ++
  (b.entries.map fun e => u32be e.1 ++ u32be e.2.1 ++ u32be e.2.2).flatten

/-- `box::Edit`. -/
structure Edit where
  edit_list : Option EditList
deriving DecidableEq, Repr

/-- `box::Edit::size`. -/
def Edit.size (b : Edit) : Nat :=
  4 + 4 + (match b.edit_list with | none => 0 | some l => EditList.size l)

/-- `box::Edit::encode`. -/
def Edit.encode (b : Edit) : List Nat :=
  u32be (Edit.size b) ++ u32be tagEdts ++ optEnc EditList.encode b.edit_list

/-- `box::Track`. -/
structure Track where
  header : TrackHeader
  edit : Option Edit
  media : Media
deriving DecidableEq, Repr

/-- `box::Track::size`. -/
def Track.size (b : Track) : Nat :=
  4 + 4 + TrackHeader.size b.header +
  (match b.edit with | none => 0 | some e => Edit.size e) +
  Media.size b.media

/-- `box::Track::encode` (header, optional edit, then media). -/
def Track.encode (b : Track) : List Nat :=
  u32be (Track.size b) ++ u32be tagTrak ++
  TrackHeader.encode b.header ++ optEnc Edit.encode b.edit ++
  Media.encode b.media

/-- `box::Movie`. -/
structure Movie where
  header : MovieHeaderBox
  tracks : List Track
deriving DecidableEq, Repr

/-- `box::Movie::size`. -/
def Movie.size (b : Movie) : Nat :=
  4 + 4 + MovieHeader.size b.header + (b.tracks.map Track.size).sum

/-- `box::Movie::encode`. -/
def Movie.encode (b : Movie) : List Nat :=
  u32be (Movie.size b) ++ u32be tagMoov ++
  MovieHeader.encode b.header ++ (b.tracks.map Track.encode).flatten

/-- `box::File` (the movie is mandatory in this variant, there is no meta
slot). -/
structure File where
  file_type : FileTypeBox
  movie : Movie
  media_data : List MediaDataBox
deriving DecidableEq, Repr

/-- `box::File::size`. -/
def File.size (f : File) : Nat :=
  FileType.size f.file_type + 4 + 4 +
  (f.media_data.map MediaData.size).sum + Movie.size f.movie

/-- `box::File::encode`: `ftyp`, then a literal 8-byte `free` box, then the
media-data boxes, then the movie box — `mdat` precedes `moov` here. -/
def File.encode (f : File) : List Nat :=
  FileType.encode f.file_type ++
  u32be 8 ++ u32be tagFree ++
  (f.media_data.map MediaData.encode).flatten ++
  Movie.encode f.movie

end Isobmff.B

namespace Isobmff.W

/-!
## The incremental writer (`src/writer.rs`)

The sink is a byte list; the stream position is its length.  `u32` counters
carry an explicit `% 2 ^ 32` wherever the Rust code increments or casts.
-/

/-- `writer::Track`'s mutable state. -/
structure Track where
  total_duration : Nat
  sample_times : List M.TimeToSampleEntry
  sample_syncs : List Nat
  sample_sizes : List Nat
  chunk_buffer : List Nat
  chunk_sample_count : Nat
  chunk_duration : Nat
  chunk_samples : List M.SampleToChunkEntry
  chunk_offsets : List Nat
deriving DecidableEq, Repr

/-- The all-empty track state.  `writer.rs` has no `Track` constructor at all
(see `Writer::new`, whose track list is empty and never extended); this is
the evident zero-initialized starting state used to exercise the `Track`
methods. -/
def Track.empty : Track :=
  ⟨0, [], [], [], [], 0, 0, [], []⟩

/-- `Track::add_sample_time`: merge into the last run when its delta equals
the duration, else push a fresh run of length 1. -/
def Track.add_sample_time (t : Track) (duration : Nat) : Track :=
  match t.sample_times.getLast? with
  | some entry =>
    if entry.sample_delta = duration then
      { t with sample_times :=
          t.sample_times.dropLast ++
          [⟨(entry.sample_count + 1) % 4294967296, entry.sample_delta⟩] }
    else
      { t with sample_times := t.sample_times ++ [⟨1, duration⟩] }
  | none =>
    { t with sample_times := t.sample_times ++ [⟨1, duration⟩] }

/-- `Track::add_chunk_samples`: when the last run's `samples_per_chunk`
equals the current chunk's sample count the chunk is absorbed (no push);
otherwise a new run starts at `chunk_id = chunk_offsets.len() as u32 + 1`
with the current count — whatever that count is, including 0. -/
def Track.add_chunk_samples (t : Track) : Track :=
  match t.chunk_samples.getLast? with
  | some entry =>
    if entry.samples_per_chunk = t.chunk_sample_count then t
    else
      { t with chunk_samples :=
          t.chunk_samples ++
          [⟨(t.chunk_offsets.length % 4294967296 + 1) % 4294967296,
            t.chunk_sample_count, 1⟩] }
  | none =>
    { t with chunk_samples :=
        t.chunk_samples ++
        [⟨(t.chunk_offsets.length % 4294967296 + 1) % 4294967296,
          t.chunk_sample_count, 1⟩] }

/-- `Track::write_chunk`: record the sink position (`as u32`), write the
buffered bytes, update the sample-to-chunk runs, push the chunk offset, and
reset the chunk counters.  There is no emptiness check. -/
def Track.write_chunk (t : Track) (output : List Nat) : Track × List Nat :=
  let chunk_offset := output.length % 4294967296
  let output' := output ++ t.chunk_buffer
  let t' := Track.add_chunk_samples t
  ({ t' with
      chunk_offsets := t'.chunk_offsets ++ [chunk_offset],
      chunk_buffer := [],
      chunk_sample_count := 0,
      chunk_duration := 0 }, output')

/-- `Track::write_sample`: bump totals, update the time-to-sample runs, push
sync index and sample size, grow the chunk, and flush when the chunk
duration reaches 1000. -/
def Track.write_sample (t : Track) (output : List Nat) (duration : Nat)
    (sync : Bool) (data : List Nat) : Track × List Nat :=
  let t1 := { t with total_duration := (t.total_duration + duration) % 4294967296 }
  let t2 := Track.add_sample_time t1 duration
  let t3 :=
    if sync then
      { t2 with sample_syncs :=
          t2.sample_syncs ++
          [(t2.sample_sizes.length % 4294967296 + 1) % 4294967296] }
    else t2
  let t4 := { t3 with sample_sizes := t3.sample_sizes ++ [data.length % 4294967296] }
  let t5 := { t4 with
      chunk_buffer := t4.chunk_buffer ++ data,
      chunk_sample_count := (t4.chunk_sample_count + 1) % 4294967296,
      chunk_duration := (t4.chunk_duration + duration) % 4294967296 }
  if t5.chunk_duration ≥ 1000 then Track.write_chunk t5 output
  else (t5, output)

/-- `Track::into_box`: assemble the per-track `trak` subtree from the
accumulated tables (constants as in the source; `U16F16!(1920)` has bits
`1920 * 65536`, etc.; `"vide"` is `0x76696465` and `"VideoHandler"` the
byte list below). -/
def Track.into_box (t : Track) : M.TrackBox :=
  { header :=
      { enabled := true, in_movie := true, in_preview := true
        creation_time := 0, modification_time := 0, track_id := 1
        duration := t.total_duration
        layer := 0, alternate_group := 0, volume := 0x0100
        matrix := Matrix.identity
        width := 1920 * 65536, height := 1080 * 65536 }
    media :=
      { header :=
          { creation_time := 0, modification_time := 0, timescale := 1000
            duration := t.total_duration, language := 0 }
        handler :=
          { handler_type := 0x76696465
            name := [86, 105, 100, 101, 111, 72, 97, 110, 100, 108, 101, 114] }
        information :=
          { header := .video ⟨0, 0, 0, 0⟩
            data_information := ⟨⟨[.url ⟨none⟩]⟩⟩
            sample_table :=
              { description := .av1
                  ⟨1, 1920, 1080, 72 * 65536, 72 * 65536, 1,
                   List.replicate 32 0, 24⟩
                time_to_sample := ⟨t.sample_times⟩
                sync_sample := some ⟨t.sample_syncs⟩
                sample_size := .perSample t.sample_sizes
                sample_to_chunk := ⟨t.chunk_samples⟩
                chunk_offset := ⟨t.chunk_offsets⟩
                sample_to_group := none } } }
    edit := none }

/-- `writer::Writer`'s state over an in-memory sink. -/
structure Writer where
  output : List Nat
  media_data_box_begin : Nat
  tracks : List Track
deriving DecidableEq, Repr

/-- `Writer::new`: writes the fixed `ftyp`, an 8-byte `free` box, and the
`mdat` header placeholder; the track list starts empty (and `writer.rs` has
no operation that ever pushes to it). -/
def Writer.new : Writer :=
  let afterFtyp :=
    M.FileTypeBox.encode ⟨tagIsom, 512, [tagIsom, tagAv01, tagIso2, tagMp41]⟩ ++
    u32be 8 ++ u32be tagFree
  { output := afterFtyp ++ u32be 0 ++ u32be tagMdat
    media_data_box_begin := afterFtyp.length
    tracks := [] }

/-- `Writer::sample(track, duration, sync, data)`: indexes
`self.tracks[track as usize]` — an out-of-bounds index is a Rust panic,
modelled as `none`. -/
def Writer.sample (w : Writer) (track : Nat) (duration : Nat) (sync : Bool)
    (data : List Nat) : Option Writer :=
  if h : track < w.tracks.length then
    let r := Track.write_sample (w.tracks.get ⟨track, h⟩) w.output duration sync data
    some { w with output := r.2, tracks := w.tracks.set track r.1 }
  else none

/-- Overwrite the 4 bytes at `pos` (the seek-back of `update_box_header`
on a byte list). -/
def patchAt (l : List Nat) (pos : Nat) (bytes : List Nat) : List Nat :=
  l.take pos ++ bytes ++ l.drop (pos + bytes.length)

/-- `Writer::finish`: flush every track's pending chunk (unconditionally),
patch the `mdat` size field, then append the encoded `moov` assembled from
the tracks. -/
def Writer.finish (w : Writer) : List Nat :=
  let flushed := w.tracks.foldl
    (fun (acc : List Track × List Nat) t =>
      let r := Track.write_chunk t acc.2
      (acc.1 ++ [r.1], r.2))
    ([], w.output)
  let patched := patchAt flushed.2 w.media_data_box_begin
    (u32be (flushed.2.length - w.media_data_box_begin))
  patched ++
  M.MovieBox.encode
    ⟨{ creation_time := 0, modification_time := 0, timescale := 1000
       duration := 0, rate := 0x00010000, volume := 0x0100
       matrix := Matrix.identity
       next_track_id := (flushed.1.length % 4294967296 + 1) % 4294967296 },
     flushed.1.map Track.into_box⟩

end Isobmff.W

namespace Isobmff

/-- All nine matrix words fit their `u32` wire width. -/
def Matrix.Wf32 (m : Matrix) : Prop :=
  m.a < 4294967296 ∧ m.b < 4294967296 ∧ m.u < 4294967296 ∧
  m.c < 4294967296 ∧ m.d < 4294967296 ∧ m.v < 4294967296 ∧
  m.x < 4294967296 ∧ m.y < 4294967296 ∧ m.w < 4294967296

instance (m : Matrix) : Decidable (Matrix.Wf32 m) := by
  unfold Matrix.Wf32; infer_instance

/-- Every `mvhd` field fits the width that the version-0 wire format gives
it; in particular the 64-bit time/duration fields fit in 32 bits. -/
def MovieHeaderBox.Wf32 (h : MovieHeaderBox) : Prop :=
  h.creation_time < 4294967296 ∧ h.modification_time < 4294967296 ∧
  h.timescale < 4294967296 ∧ h.duration < 4294967296 ∧
  h.rate < 4294967296 ∧ h.volume < 65536 ∧
  Matrix.Wf32 h.matrix ∧ h.next_track_id < 4294967296

instance (h : MovieHeaderBox) : Decidable (MovieHeaderBox.Wf32 h) := by
  unfold MovieHeaderBox.Wf32; infer_instance

/-- An `elst` entry whose fields fit the version-0 wire widths. -/
def M.EditListEntry.Wf32 (e : M.EditListEntry) : Prop :=
  e.segment_duration < 4294967296 ∧ e.media_time < 4294967296 ∧
  e.media_rate < 4294967296

instance (e : M.EditListEntry) : Decidable (M.EditListEntry.Wf32 e) := by
  unfold M.EditListEntry.Wf32; infer_instance

/-- An `elst` box whose entry count and entries fit the version-0 wire
widths. -/
def M.EditListBox.Wf32 (l : M.EditListBox) : Prop :=
  l.entries.length < 4294967296 ∧ ∀ e ∈ l.entries, M.EditListEntry.Wf32 e

instance (l : M.EditListBox) : Decidable (M.EditListBox.Wf32 l) := by
  unfold M.EditListBox.Wf32; infer_instance

/-! ## Helper lemmas for symbolic evaluation of the decoders -/

@[simp]
theorem bind_apply {α β : Type} (x : DecM α) (f : α → DecM β) (l : List Nat) :
    (x >>= f) l =
      match x l with
      | .ok (a, rest) => f a rest
      | .error e => .error e := rfl

@[simp]
theorem pure_apply {α : Type} (a : α) (l : List Nat) :
    (pure a : DecM α) l = .ok (a, l) := rfl

@[simp]
theorem readU8_cons (b : Nat) (r : List Nat) :
    readU8 (b :: r) = .ok (b, r) := rfl

@[simp]
theorem readU16_u16be (n : Nat) (r : List Nat) :
    readU16 (u16be n ++ r) = .ok (n % 65536, r) := by
  simp [readU16, u16be, readU8, DecM.bind, ofBe4]
  omega

@[simp]
theorem readU24_u24be (n : Nat) (r : List Nat) :
    readU24 (u24be n ++ r) = .ok (n % 16777216, r) := by
  simp [readU24, u24be, readU8, DecM.bind]
  omega

@[simp]
theorem readU32_u32be (n : Nat) (r : List Nat) :
    readU32 (u32be n ++ r) = .ok (n % 4294967296, r) := by
  simp [readU32, u32be, readU8, DecM.bind, ofBe4]
  omega

@[simp]
theorem readU16_u16be_nil (n : Nat) :
    readU16 (u16be n) = .ok (n % 65536, []) := by
  have := readU16_u16be n []
  simpa using this

@[simp]
theorem readU24_u24be_nil (n : Nat) :
    readU24 (u24be n) = .ok (n % 16777216, []) := by
  have := readU24_u24be n []
  simpa using this

@[simp]
theorem readU32_u32be_nil (n : Nat) :
    readU32 (u32be n) = .ok (n % 4294967296, []) := by
  have := readU32_u32be n []
  simpa using this

@[simp]
theorem dassert_apply (b : Bool) (l : List Nat) :
    dassert b l = if b then .ok ((), l) else .error .panicked := rfl

@[simp]
theorem u16be_length (n : Nat) : (u16be n).length = 2 := rfl

@[simp]
theorem u24be_length (n : Nat) : (u24be n).length = 3 := rfl

@[simp]
theorem u32be_length (n : Nat) : (u32be n).length = 4 := rfl

@[simp]
theorem u64be_length (n : Nat) : (u64be n).length = 8 := rfl

/-- The `mvhd` body is always exactly 100 bytes. -/
theorem mvhdBody_length (h : MovieHeaderBox) : (M.mvhdBody h).length = 100 := by
  simp [M.mvhdBody, Matrix.encode]

/-- The framed `mvhd` box is always exactly 108 bytes. -/
theorem mvhd_encode_length (h : MovieHeaderBox) :
    (M.MovieHeaderBox.encode h).length = 108 := by
  simp [M.MovieHeaderBox.encode, M.mkBox, mvhdBody_length]

/-- Stripping the 8-byte header off a framed `mvhd` box leaves its body —
exactly the slice the enclosing `decode_boxes!` loop hands to
`MovieHeaderBox::decode`. -/
theorem mvhd_encode_drop (h : MovieHeaderBox) :
    (M.MovieHeaderBox.encode h).drop 8 = M.mvhdBody h := by
  simp [M.MovieHeaderBox.encode, M.mkBox, u32be]

/-- Stripping the 8-byte header off a framed `elst` box leaves its body. -/
theorem elst_encode_drop (l : M.EditListBox) :
    (M.EditListBox.encode l).drop 8 = M.elstBody l := by
  simp [M.EditListBox.encode, M.mkBox, u32be]

/-- Decoding the `mvhd` body produced by the encoder recovers every field
reduced to its wire width (the `as u32` truncations of the encoder). -/
theorem mvhd_roundtrip_general (h : MovieHeaderBox) :
    runDec M.MovieHeaderBox.decode (M.mvhdBody h) =
      .ok ⟨h.creation_time % 4294967296, h.modification_time % 4294967296,
           h.timescale % 4294967296, h.duration % 4294967296,
           h.rate % 4294967296, h.volume % 65536,
           ⟨h.matrix.a % 4294967296, h.matrix.b % 4294967296,
            h.matrix.u % 4294967296, h.matrix.c % 4294967296,
            h.matrix.d % 4294967296, h.matrix.v % 4294967296,
            h.matrix.x % 4294967296, h.matrix.y % 4294967296,
            h.matrix.w % 4294967296⟩,
           h.next_track_id % 4294967296⟩ := by
  simp [runDec, M.MovieHeaderBox.decode, M.mvhdBody, Matrix.encode,
    M.Matrix.decode]

/-- A well-formed `mvhd` round-trips exactly through body encode/decode. -/
theorem mvhd_roundtrip_wf (h : MovieHeaderBox) (hWf : MovieHeaderBox.Wf32 h) :
    runDec M.MovieHeaderBox.decode (M.mvhdBody h) = .ok h := by
  obtain ⟨hc, hm, ht, hd, hr, hv, hmat, hn⟩ := hWf
  obtain ⟨ma, mb, mu, mc, md, mv, mx, my, mw⟩ := hmat
  rw [mvhd_roundtrip_general]
  obtain ⟨c, m, t, d, r, v, ⟨a, b, u, cc, dd, vv, x, y, w⟩, n⟩ := h
  simp only [Except.ok.injEq, MovieHeaderBox.mk.injEq, Matrix.mk.injEq] at *
  omega

/-- Evaluating the version-0 `elst` entry decoder on one encoded entry. -/
theorem elstEntry_zero_eval (e : M.EditListEntry) (r : List Nat) :
    M.elstEntry 0
      (u32be e.segment_duration ++ (u32be e.media_time ++
       (u32be e.media_rate ++ r))) =
    .ok (⟨e.segment_duration % 4294967296, e.media_time % 4294967296,
          e.media_rate % 4294967296⟩, r) := by
  simp [M.elstEntry]

/-- Decoding the version-0 `elst` entry list produced by the encoder
recovers the entries reduced to their wire widths, consuming exactly the
encoded bytes. -/
theorem elst_entries_roundtrip (es : List M.EditListEntry) (r : List Nat) :
    M.decodeCount (M.elstEntry 0) es.length
      ((es.map fun e =>
          u32be e.segment_duration ++ (u32be e.media_time ++
          u32be e.media_rate)).flatten ++ r) =
    .ok (es.map fun e =>
          (⟨e.segment_duration % 4294967296, e.media_time % 4294967296,
            e.media_rate % 4294967296⟩ : M.EditListEntry), r) := by
  induction es generalizing r with
  | nil => simp [M.decodeCount, DecM.pure]
  | cons e tl ih =>
    simp only [List.map_cons, List.flatten_cons, List.append_assoc,
      List.length_cons, M.decodeCount, bind_apply, elstEntry_zero_eval, ih,
      pure_apply, List.map]

/-! ## Claim C1 — encode/decode round-trip -/

/-- Claim C1, counterexample: the `MovieHeaderBox` whose `creation_time` is
`u32::MAX + 1 = 2^32` does not survive `decode(encode(x))`: the encoder's
`as u32` cast truncates the field to 0, so the decoder returns the default
header (creation time 0) instead of the original value. -/
theorem c1_roundtrip_counterexample :
    runDec M.MovieHeaderBox.decode
        ((M.MovieHeaderBox.encode
            { MovieHeaderBox.default with creation_time := 4294967296 }).drop 8) =
      .ok MovieHeaderBox.default ∧
    ({ MovieHeaderBox.default with creation_time := 4294967296 }
        : MovieHeaderBox) ≠ MovieHeaderBox.default := by
  constructor
  · rw [mvhd_encode_drop, mvhd_roundtrip_general]
    decide
  · decide

/-- A well-formed `elst` round-trips exactly through body encode/decode. -/
theorem elst_roundtrip_wf (l : M.EditListBox) (hWf : M.EditListBox.Wf32 l) :
    runDec M.EditListBox.decode (M.elstBody l) = .ok l := by
  obtain ⟨hlen, hents⟩ := hWf
  have hmap : (l.entries.map fun e =>
      (⟨e.segment_duration % 4294967296, e.media_time % 4294967296,
        e.media_rate % 4294967296⟩ : M.EditListEntry)) = l.entries := by
    revert hents
    generalize l.entries = es
    intro hents
    induction es with
    | nil => rfl
    | cons e tl ih =>
      have he := hents e (by simp)
      obtain ⟨h1, h2, h3⟩ := he
      have htl := ih fun x hx => hents x (by simp [hx])
      simp [Nat.mod_eq_of_lt h1, Nat.mod_eq_of_lt h2, Nat.mod_eq_of_lt h3,
        htl]
  have hent := elst_entries_roundtrip l.entries []
  rw [List.append_nil] at hent
  simp [runDec, M.EditListBox.decode, M.elstBody, Nat.mod_eq_of_lt hlen,
    hent, hmap]

/-- Twelve bytes per encoded version-0 `elst` entry. -/
theorem elst_flatten_length (es : List M.EditListEntry) :
    ((es.map fun e =>
        u32be e.segment_duration ++ u32be e.media_time ++
        u32be e.media_rate).flatten).length = 12 * es.length := by
  induction es with
  | nil => rfl
  | cons e tl ih =>
    simp only [List.map_cons, List.flatten_cons, List.length_append,
      List.length_cons, u32be_length, ih]
    omega

/-- An `elst` body is 8 bytes of fixed header plus 12 bytes per entry. -/
theorem elstBody_length (l : M.EditListBox) :
    (M.elstBody l).length = 8 + 12 * l.entries.length := by
  simp only [M.elstBody, List.length_append, u24be_length, u32be_length,
    List.length_cons, List.length_nil, elst_flatten_length]

/-- Claim C1, amended: for `MovieHeaderBox` and `EditListBox`,
`decode(encode(x)) == x` field-for-field holds whenever every 64-bit
time/duration field (and each fixed-width field) fits its version-0 wire
width; the encoder always writes version 0 and truncates 64-bit fields with
`as u32`, so a value above `u32::MAX` decodes to its truncation instead
(see the counterexample). -/
theorem c1_roundtrip_amended (h : MovieHeaderBox) (l : M.EditListBox)
    (hh : MovieHeaderBox.Wf32 h) (hl : M.EditListBox.Wf32 l) :
    runDec M.MovieHeaderBox.decode ((M.MovieHeaderBox.encode h).drop 8) =
      .ok h ∧
    runDec M.EditListBox.decode ((M.EditListBox.encode l).drop 8) = .ok l := by
  constructor
  · rw [mvhd_encode_drop]
    exact mvhd_roundtrip_wf h hh
  · rw [elst_encode_drop]
    exact elst_roundtrip_wf l hl

/-- Claim C1, witness: the amended round-trip at a concrete well-formed
header and edit list. -/
theorem c1_roundtrip_witness :
    MovieHeaderBox.Wf32 MovieHeaderBox.default ∧
    M.EditListBox.Wf32 ⟨[⟨5, 6, 7⟩]⟩ ∧
    (runDec M.MovieHeaderBox.decode
        ((M.MovieHeaderBox.encode MovieHeaderBox.default).drop 8) =
      .ok MovieHeaderBox.default ∧
     runDec M.EditListBox.decode
        ((M.EditListBox.encode ⟨[⟨5, 6, 7⟩]⟩).drop 8) =
      .ok ⟨[⟨5, 6, 7⟩]⟩) :=
  ⟨by decide, by decide,
   c1_roundtrip_amended MovieHeaderBox.default ⟨[⟨5, 6, 7⟩]⟩
     (by decide) (by decide)⟩

/-! ## Claim C5 — NUL-terminated string encoding -/

/-- Claim C5, counterexample: in the seek-backpatch variant
(`marshal.rs`), encoding the empty string writes one byte — the NUL
terminator — not zero bytes. -/
theorem c5_empty_string_counterexample :
    M.strEncode [] = [0] ∧ (M.strEncode []).length ≠ 0 := by
  constructor
  · rfl
  · decide

/-- Claim C5, amended: the two variants differ on the empty string.  The
size-precomputed variant (`box.rs` / `box/mod.rs`) encodes the empty string
as zero bytes and any non-empty string as its bytes plus one trailing NUL,
as the claim states; the seek-backpatch variant (`marshal.rs`)
unconditionally writes the bytes plus one NUL, so its empty string encodes
as exactly one NUL byte. -/
theorem c5_string_encode_amended :
    (∀ s : List Nat, M.strEncode s = s ++ [0]) ∧
    B.strEncode [] = [] ∧
    (∀ s : List Nat, s ≠ [] → B.strEncode s = s ++ [0]) := by
  refine ⟨fun s => rfl, rfl, fun s hs => ?_⟩
  simp [B.strEncode, hs]

/-- Claim C5, witness: the amended statement applied at `"a"`. -/
theorem c5_string_encode_witness :
    ([97] : List Nat) ≠ [] ∧ B.strEncode [97] = [97] ++ [0] :=
  ⟨by decide, c5_string_encode_amended.2.2 [97] (by decide)⟩

/-! ## Claim C6 — string decode cursor discipline -/

/-- Position of the first NUL in `s ++ 0 :: rest` when `s` is NUL-free. -/
theorem findIdx_nul_append (s rest : List Nat) (hs : ∀ c ∈ s, c ≠ 0) :
    (s ++ 0 :: rest).findIdx? (fun c => c == 0) = some s.length := by
  induction s with
  | nil => simp [List.findIdx?]
  | cons a tl ih =>
    have ha : a ≠ 0 := hs a (by simp)
    have htl := ih fun c hc => hs c (by simp [hc])
    simp [List.findIdx?_cons, ha, htl]

/-- Claim C6: decoding `encode(s) ++ rest` for a NUL-free non-empty string
`s` returns `s` but consumes only `s.length` bytes — the NUL terminator that
`encode` wrote is left at the front of the remaining input (the cursor sits
on the `0x00`, not at `rest`).  This contradicts the claim/spec, and it
breaks the code's own use in `DataEntryUrnBox::decode`, where the second of
two consecutive strings then always decodes as empty. -/
theorem c6_string_decode_terminator_left (s rest : List Nat) (_hne : s ≠ [])
    (hs : ∀ c ∈ s, c ≠ 0) :
    M.strDecode (M.strEncode s ++ rest) = .ok (s, 0 :: rest) := by
  have hidx := findIdx_nul_append s rest hs
  have htake : (s ++ 0 :: rest).take s.length = s := List.take_left s (0 :: rest)
  have hdrop : (s ++ 0 :: rest).drop s.length = 0 :: rest :=
    List.drop_left s (0 :: rest)
  simp [M.strDecode, M.strEncode, hidx, htake, hdrop]

/-- Claim C6, witness: decoding the encoded `"a"` followed by the byte
`0x62` consumes one byte, not two: the remainder still starts with the NUL
terminator, and the second string decoded from that remainder (as
`DataEntryUrnBox::decode` does) would be empty. -/
theorem c6_string_decode_witness :
    ([97] : List Nat) ≠ [] ∧ (∀ c ∈ ([97] : List Nat), c ≠ 0) ∧
    M.strDecode (M.strEncode [97] ++ [98]) = .ok ([97], [0, 98]) :=
  ⟨by decide, by decide,
   c6_string_decode_terminator_left [97] [98] (by decide) (by decide)⟩

/-! ## The box-sequence loop, symbolically -/

/-- The `decode_boxes!` loop accepts an exhausted input, whatever the
fuel. -/
theorem M.decodeBoxesFuel_nil {σ : Type}
    (dispatch : Nat → List Nat → σ → Except MErr σ) (fuel : Nat) (s : σ) :
    M.decodeBoxesFuel dispatch fuel [] s = .ok s := by
  cases fuel <;> rfl

/-- One unfolding of the `decode_boxes!` loop on an 8-byte-headed input. -/
theorem M.decodeBoxesFuel_step {σ : Type}
    (dispatch : Nat → List Nat → σ → Except MErr σ)
    (fuel a b c d t0 t1 t2 t3 : Nat) (rest : List Nat) (s : σ) :
    M.decodeBoxesFuel dispatch (fuel + 1)
        (a :: b :: c :: d :: t0 :: t1 :: t2 :: t3 :: rest) s =
      (if ofBe4 a b c d < 8 then .error .panicked
       else if rest.length < ofBe4 a b c d - 8 then .error .panicked
       else
         match dispatch (ofBe4 t0 t1 t2 t3)
             (rest.take (ofBe4 a b c d - 8)) s with
         | .error e => .error e
         | .ok s' =>
             M.decodeBoxesFuel dispatch fuel
               (rest.drop (ofBe4 a b c d - 8)) s') := rfl

/-- Processing one well-sized box at the head of the loop's input: the
header is read back, the body sliced off and dispatched, and the loop
continues on the remaining input with one unit of fuel spent. -/
theorem M.decodeBoxesFuel_box {σ : Type}
    (dispatch : Nat → List Nat → σ → Except MErr σ)
    (fuel size t : Nat) (body rest : List Nat) (s : σ)
    (hsize : size = 8 + body.length) (hlt : size < 4294967296)
    (ht : t < 4294967296) :
    M.decodeBoxesFuel dispatch (fuel + 1)
        (u32be size ++ (u32be t ++ (body ++ rest))) s =
      match dispatch t body s with
      | .error e => .error e
      | .ok s' => M.decodeBoxesFuel dispatch fuel rest s' := by
  have hof : ofBe4 (size / 16777216 % 256) (size / 65536 % 256)
      (size / 256 % 256) (size % 256) = size := by
    unfold ofBe4; omega
  have hoft : ofBe4 (t / 16777216 % 256) (t / 65536 % 256)
      (t / 256 % 256) (t % 256) = t := by
    unfold ofBe4; omega
  simp only [u32be, List.cons_append, List.nil_append]
  rw [M.decodeBoxesFuel_step, hof, hoft]
  have hge : ¬size < 8 := by omega
  have hlen : ¬(body ++ rest).length < size - 8 := by
    simp only [List.length_append]; omega
  have hsub : size - 8 = body.length := by omega
  rw [if_neg hge, if_neg hlen, hsub, List.take_left body rest,
    List.drop_left body rest]

/-- Dispatching the `mvhd` tag on an encoded body with an empty `mvhd` slot
decodes the header (to its wire-width truncation). -/
theorem moovDispatch_mvhd (h : MovieHeaderBox) (tracks : List M.TrackBox) :
    M.moovDispatch tagMvhd (M.mvhdBody h) (none, tracks) =
      .ok (some ⟨h.creation_time % 4294967296,
            h.modification_time % 4294967296, h.timescale % 4294967296,
            h.duration % 4294967296, h.rate % 4294967296, h.volume % 65536,
            ⟨h.matrix.a % 4294967296, h.matrix.b % 4294967296,
             h.matrix.u % 4294967296, h.matrix.c % 4294967296,
             h.matrix.d % 4294967296, h.matrix.v % 4294967296,
             h.matrix.x % 4294967296, h.matrix.y % 4294967296,
             h.matrix.w % 4294967296⟩,
            h.next_track_id % 4294967296⟩, tracks) := by
  simp [M.moovDispatch, mvhd_roundtrip_general]

/-! ## Claim C2 — `moov` with zero `trak` children -/

/-- Claim C2, counterexample: decoding a `moov` body that holds one valid
`mvhd` and no `trak` at all does not fail — it returns a `MovieBox` with an
empty track list. -/
theorem c2_moov_empty_tracks_counterexample :
    M.MovieBox.decode (M.MovieHeaderBox.encode MovieHeaderBox.default) =
      .ok (⟨MovieHeaderBox.default, []⟩, []) := by
  rfl

/-- Claim C2, amended: for every well-formed movie header `h`, decoding the
`moov` body consisting of the encoded `mvhd` and zero `trak` children
succeeds, returning the header and an empty track list — `trak` is declared
`multiple` in `MovieBox::decode`, and no at-least-one check exists.  (The
superseded `box.rs` decoder instead hits `assert!(!tracks.is_empty())`, a
panic — also not the named "required" violation the claim states.) -/
theorem c2_moov_empty_tracks_amended (h : MovieHeaderBox)
    (hWf : MovieHeaderBox.Wf32 h) :
    M.MovieBox.decode (M.MovieHeaderBox.encode h) = .ok (⟨h, []⟩, []) := by
  have hshape : M.MovieHeaderBox.encode h =
      u32be 108 ++ (u32be tagMvhd ++ (M.mvhdBody h ++ [])) := by
    simp [M.MovieHeaderBox.encode, M.mkBox, mvhdBody_length]
  have hlen : (M.MovieHeaderBox.encode h).length = 107 + 1 :=
    mvhd_encode_length h
  have hdisp : M.moovDispatch tagMvhd (M.mvhdBody h) (none, []) =
      .ok (some h, []) := by
    simp [M.moovDispatch, mvhd_roundtrip_wf h hWf]
  simp only [M.MovieBox.decode, M.decodeBoxes]
  rw [hlen, hshape,
    M.decodeBoxesFuel_box M.moovDispatch 107 108 tagMvhd (M.mvhdBody h) []
      (none, []) (by rw [mvhdBody_length]) (by norm_num)
      (by norm_num [tagMvhd]),
    hdisp]
  simp [M.decodeBoxesFuel_nil]

/-- Claim C2, witness: the amended statement at the default header. -/
theorem c2_moov_empty_tracks_witness :
    MovieHeaderBox.Wf32 MovieHeaderBox.default ∧
    M.MovieBox.decode (M.MovieHeaderBox.encode MovieHeaderBox.default) =
      .ok (⟨MovieHeaderBox.default, []⟩, []) :=
  ⟨by decide, c2_moov_empty_tracks_amended MovieHeaderBox.default (by decide)⟩

/-! ## Claim C3 — duplicated `required`/`optional` child box -/

/-- A `moov` body carrying two `mvhd` children (a `required` slot) fails
with exactly `InvalidBoxQuantity { type: "mvhd", quantity: 2, expected: 1 }`,
for any two header values. -/
theorem moov_duplicate_mvhd (h1 h2 : MovieHeaderBox) :
    M.MovieBox.decode
        (M.MovieHeaderBox.encode h1 ++ M.MovieHeaderBox.encode h2) =
      .error (.quantityErr "mvhd" 2 1) := by
  have hshape : M.MovieHeaderBox.encode h1 ++ M.MovieHeaderBox.encode h2 =
      u32be 108 ++ (u32be tagMvhd ++
        (M.mvhdBody h1 ++ (u32be 108 ++ (u32be tagMvhd ++
          (M.mvhdBody h2 ++ []))))) := by
    simp [M.MovieHeaderBox.encode, M.mkBox, mvhdBody_length]
  have hlen : (M.MovieHeaderBox.encode h1 ++
      M.MovieHeaderBox.encode h2).length = 215 + 1 := by
    simp [List.length_append, mvhd_encode_length]
  have hdisp2 : ∀ htr : MovieHeaderBox,
      M.moovDispatch tagMvhd (M.mvhdBody h2)
        (some htr, ([] : List M.TrackBox)) =
        .error (.quantityErr "mvhd" 2 1) := by
    intro htr
    simp [M.moovDispatch]
  have hrest : ∀ htr : MovieHeaderBox,
      M.decodeBoxesFuel M.moovDispatch 215
        (u32be 108 ++ (u32be tagMvhd ++ M.mvhdBody h2))
        (some htr, ([] : List M.TrackBox)) =
      .error (.quantityErr "mvhd" 2 1) := by
    intro htr
    rw [show u32be 108 ++ (u32be tagMvhd ++ M.mvhdBody h2) =
          u32be 108 ++ (u32be tagMvhd ++ (M.mvhdBody h2 ++ [])) by simp,
      show (215 : Nat) = 214 + 1 from rfl,
      M.decodeBoxesFuel_box M.moovDispatch 214 108 tagMvhd (M.mvhdBody h2) []
        (some htr, []) (by rw [mvhdBody_length]) (by norm_num)
        (by norm_num [tagMvhd]),
      hdisp2 htr]
  simp only [M.MovieBox.decode, M.decodeBoxes]
  rw [hlen, hshape,
    M.decodeBoxesFuel_box M.moovDispatch 215 108 tagMvhd (M.mvhdBody h1)
      (u32be 108 ++ (u32be tagMvhd ++ (M.mvhdBody h2 ++ [])))
      (none, []) (by rw [mvhdBody_length]) (by norm_num)
      (by norm_num [tagMvhd]),
    moovDispatch_mvhd]
  simp [hrest]

/-- An `edts` body carrying two `elst` children (an `optional` slot) fails
with exactly `InvalidBoxQuantity { type: "elst", quantity: 2, expected: 1 }`,
for any well-formed first list and any second list, as long as both boxes'
sizes fit in `u32`. -/
theorem edts_duplicate_elst (l1 l2 : M.EditListBox)
    (hWf1 : M.EditListBox.Wf32 l1)
    (hb1 : 16 + 12 * l1.entries.length < 4294967296)
    (hb2 : 16 + 12 * l2.entries.length < 4294967296) :
    M.EditBox.decode
        (M.EditListBox.encode l1 ++ M.EditListBox.encode l2) =
      .error (.quantityErr "elst" 2 1) := by
  obtain ⟨f, hf⟩ : ∃ f,
      (M.EditListBox.encode l1 ++ M.EditListBox.encode l2).length = f + 2 := by
    refine ⟨(M.EditListBox.encode l1 ++ M.EditListBox.encode l2).length - 2,
      ?_⟩
    have h2le : 2 ≤
        (M.EditListBox.encode l1 ++ M.EditListBox.encode l2).length := by
      simp only [M.EditListBox.encode, M.mkBox, List.length_append,
        u32be_length]
      omega
    omega
  have hshape : M.EditListBox.encode l1 ++ M.EditListBox.encode l2 =
      u32be (8 + (M.elstBody l1).length) ++ (u32be tagElst ++
        (M.elstBody l1 ++ (u32be (8 + (M.elstBody l2).length) ++
          (u32be tagElst ++ M.elstBody l2)))) := by
    simp [M.EditListBox.encode, M.mkBox]
  have hdisp1 : M.editDispatch tagElst (M.elstBody l1) none =
      .ok (some l1) := by
    simp [M.editDispatch, elst_roundtrip_wf l1 hWf1]
  have hdisp2 : M.editDispatch tagElst (M.elstBody l2) (some l1) =
      .error (.quantityErr "elst" 2 1) := by
    simp [M.editDispatch]
  have hrest : M.decodeBoxesFuel M.editDispatch (f + 1)
      (u32be (8 + (M.elstBody l2).length) ++
        (u32be tagElst ++ M.elstBody l2)) (some l1) =
      .error (.quantityErr "elst" 2 1) := by
    rw [show u32be (8 + (M.elstBody l2).length) ++
          (u32be tagElst ++ M.elstBody l2) =
        u32be (8 + (M.elstBody l2).length) ++
          (u32be tagElst ++ (M.elstBody l2 ++ [])) by simp,
      M.decodeBoxesFuel_box M.editDispatch f (8 + (M.elstBody l2).length)
        tagElst (M.elstBody l2) [] (some l1) rfl
        (by rw [elstBody_length l2]; omega) (by norm_num [tagElst]),
      hdisp2]
  simp only [M.EditBox.decode, M.decodeBoxes]
  rw [hf, show f + 2 = f + 1 + 1 from rfl, hshape,
    M.decodeBoxesFuel_box M.editDispatch (f + 1)
      (8 + (M.elstBody l1).length) tagElst (M.elstBody l1)
      (u32be (8 + (M.elstBody l2).length) ++
        (u32be tagElst ++ M.elstBody l2))
      none rfl (by rw [elstBody_length l1]; omega) (by norm_num [tagElst]),
    hdisp1]
  simp [hrest]

/-- Claim C3: duplicating a child tag declared `required` (two `mvhd`
children in a `moov` body) or `optional` (two `elst` children in an `edts`
body) makes decode fail with the named invalid-box-quantity error carrying
that box's tag, observed quantity 2 and expected quantity 1. -/
theorem c3_duplicate_box_quantity :
    (∀ h1 h2 : MovieHeaderBox,
      M.MovieBox.decode
          (M.MovieHeaderBox.encode h1 ++ M.MovieHeaderBox.encode h2) =
        .error (.quantityErr "mvhd" 2 1)) ∧
    (∀ l1 l2 : M.EditListBox, M.EditListBox.Wf32 l1 →
      16 + 12 * l1.entries.length < 4294967296 →
      16 + 12 * l2.entries.length < 4294967296 →
      M.EditBox.decode
          (M.EditListBox.encode l1 ++ M.EditListBox.encode l2) =
        .error (.quantityErr "elst" 2 1)) :=
  ⟨moov_duplicate_mvhd, edts_duplicate_elst⟩

/-- Claim C3, witness: two empty edit lists in one `edts` body. -/
theorem c3_duplicate_box_witness :
    M.EditListBox.Wf32 ⟨[]⟩ ∧
    16 + 12 * (⟨[]⟩ : M.EditListBox).entries.length < 4294967296 ∧
    M.EditBox.decode
        (M.EditListBox.encode ⟨[]⟩ ++ M.EditListBox.encode ⟨[]⟩) =
      .error (.quantityErr "elst" 2 1) :=
  ⟨by decide, by decide,
   c3_duplicate_box_quantity.2 ⟨[]⟩ ⟨[]⟩ (by decide) (by decide) (by decide)⟩

/-! ## Claim C4 — box size that does not fit the buffer -/

/-- Claim C4, counterexample: a declared child size that does not fit the
remaining buffer makes the decode loop abort (Rust: `u32` subtraction
overflow / `split_at` out of range — a panic), rather than return a decode
error: a `free` box claiming 9 bytes with an empty remainder, and one
claiming size 4 (less than the 8-byte header). -/
theorem c4_bad_size_counterexample :
    M.MovieBox.decode [0, 0, 0, 9, 102, 114, 101, 101] = .error .panicked ∧
    M.MovieBox.decode [0, 0, 0, 4, 102, 114, 101, 101] = .error .panicked := by
  constructor <;> rfl

/-- Claim C4, amended: whenever the declared size is below 8 or exceeds the
bytes remaining after the 8-byte header, the `decode_boxes!` loop aborts
with a panic (`size - 4 - 4` underflow or `split_at` out of range) — it
neither succeeds nor returns an `Error` value. -/
theorem c4_bad_size_amended {σ : Type}
    (dispatch : Nat → List Nat → σ → Except MErr σ) (s : σ)
    (fuel a b c d t0 t1 t2 t3 : Nat) (rest : List Nat)
    (hbad : ofBe4 a b c d < 8 ∨ rest.length < ofBe4 a b c d - 8) :
    M.decodeBoxesFuel dispatch (fuel + 1)
        (a :: b :: c :: d :: t0 :: t1 :: t2 :: t3 :: rest) s =
      .error .panicked := by
  rw [M.decodeBoxesFuel_step]
  rcases hbad with hb | hb
  · rw [if_pos hb]
  · by_cases h8 : ofBe4 a b c d < 8
    · rw [if_pos h8]
    · rw [if_neg h8, if_pos hb]

/-- Claim C4, witness: the amended statement at the 9-byte `free` header
with nothing after it, in the `moov` loop. -/
theorem c4_bad_size_witness :
    (ofBe4 0 0 0 9 < 8 ∨ ([] : List Nat).length < ofBe4 0 0 0 9 - 8) ∧
    M.decodeBoxesFuel M.moovDispatch (0 + 1) [0, 0, 0, 9, 102, 114, 101, 101]
      (none, ([] : List M.TrackBox)) = .error .panicked :=
  ⟨by decide,
   c4_bad_size_amended M.moovDispatch (none, []) 0 0 0 0 9 102 114 101 101 []
     (by decide)⟩

/-! ## Claim C9 — the writer's track list is empty forever -/

/-- Claim C9: every `Writer::sample` call on a writer produced by
`Writer::new` indexes `self.tracks[track]` with the track list created
empty, so it fails (out-of-bounds panic) for every track index and sample
argument; no operation of `writer.rs` ever pushes a track. -/
theorem c9_sample_on_new_writer_fails
    (track duration : Nat) (sync : Bool) (data : List Nat) :
    W.Writer.sample W.Writer.new track duration sync data = none := by
  simp [W.Writer.sample, W.Writer.new]

/-! ## Claim C7 — the two framing strategies -/

/-- Four bytes per brand in the `ftyp` compatible-brand list. -/
theorem map_u32be_flatten_length (l : List Nat) :
    ((l.map u32be).flatten).length = 4 * l.length := by
  induction l with
  | nil => rfl
  | cons a tl ih =>
    simp [ih]
    omega

/-- The two variants emit identical bytes for the `ftyp` box. -/
theorem enc_ftyp_eq (ft : FileTypeBox) :
    B.FileType.encode ft = M.FileTypeBox.encode ft := by
  simp only [B.FileType.encode, B.FileType.size, M.FileTypeBox.encode,
    M.mkBox, List.length_append, u32be_length, map_u32be_flatten_length,
    List.append_assoc]
  congr 2
  omega

/-- The two variants emit identical bytes for the `mvhd` box. -/
theorem enc_mvhd_eq (h : MovieHeaderBox) :
    B.MovieHeader.encode h = M.MovieHeaderBox.encode h := by
  simp [B.MovieHeader.encode, B.MovieHeader.size, M.MovieHeaderBox.encode,
    M.mkBox, M.mvhdBody, Matrix.encode]

/-- The two variants emit identical bytes for the `mdat` box. -/
theorem enc_mdat_eq (d : MediaDataBox) :
    B.MediaData.encode d = M.MediaDataBox.encode d := by
  simp [B.MediaData.encode, B.MediaData.size, M.MediaDataBox.encode, M.mkBox]

/-- The two variants emit identical bytes for a `moov` box with no tracks. -/
theorem enc_moov_nil_eq (h : MovieHeaderBox) :
    B.Movie.encode ⟨h, []⟩ = M.MovieBox.encode ⟨h, []⟩ := by
  simp [B.Movie.encode, B.Movie.size, B.MovieHeader.size,
    M.MovieBox.encode, M.mkBox, mvhd_encode_length, enc_mvhd_eq]

set_option maxRecDepth 8192 in
/-- Claim C7, counterexample: the same minimal tree — `ftyp`
`(isom, 512, [])`, a movie with the default header and no tracks, no media
data — encodes to different bytes under the two framing strategies: the
size-precomputed `File::encode` (box.rs) inserts a literal 8-byte `free` box
after `ftyp` (and writes `mdat` before `moov`), the seek-backpatch
`File::encode` (marshal.rs) writes `moov` directly after `ftyp`. -/
theorem c7_framing_counterexample :
    B.File.encode ⟨⟨tagIsom, 512, []⟩, ⟨MovieHeaderBox.default, []⟩, []⟩ ≠
    M.File.encode ⟨⟨tagIsom, 512, []⟩, some ⟨MovieHeaderBox.default, []⟩,
      [], none⟩ := by
  decide

/-- Claim C7, amended: the two framing strategies agree box-for-box — for
the `ftyp`, `mvhd`, `mdat` boxes and for a `moov` subtree with no tracks
they produce identical byte output given equal field values — but not at
the file level, where the size-precomputed variant inserts an extra 8-byte
`free` box and orders `mdat` before `moov` while the seek-backpatch variant
orders `moov` before `mdat` (see the counterexample). -/
theorem c7_framing_amended :
    (∀ ft : FileTypeBox, B.FileType.encode ft = M.FileTypeBox.encode ft) ∧
    (∀ h : MovieHeaderBox,
      B.MovieHeader.encode h = M.MovieHeaderBox.encode h) ∧
    (∀ d : MediaDataBox, B.MediaData.encode d = M.MediaDataBox.encode d) ∧
    (∀ h : MovieHeaderBox,
      B.Movie.encode ⟨h, []⟩ = M.MovieBox.encode ⟨h, []⟩) :=
  ⟨enc_ftyp_eq, enc_mvhd_eq, enc_mdat_eq, enc_moov_nil_eq⟩

/-! ## Claim C8 — time-to-sample run-length building -/

/-- Claim C8: feeding the durations `[33, 33, 33, 50, 50]` through
`write_sample` yields exactly the two runs `(3, 33)` and `(2, 50)`; and in
general, for a track with at least one run, `add_sample_time` starts a new
run exactly when the sample's duration differs from the last run's delta
(otherwise it merges into that run). -/
theorem c8_time_to_sample_runs :
    (([33, 33, 33, 50, 50].foldl
        (fun (acc : W.Track × List Nat) d =>
          W.Track.write_sample acc.1 acc.2 d false [])
        (W.Track.empty, [])).1.sample_times =
      [⟨3, 33⟩, ⟨2, 50⟩]) ∧
    (∀ (t : W.Track) (d : Nat) (e : M.TimeToSampleEntry),
      t.sample_times.getLast? = some e →
      ((W.Track.add_sample_time t d).sample_times.length =
          t.sample_times.length + 1 ↔ e.sample_delta ≠ d)) := by
  constructor
  · rfl
  · intro t d e hlast
    have hne : t.sample_times ≠ [] := by
      intro hnil
      rw [hnil] at hlast
      exact Option.noConfusion hlast
    have hpos : 0 < t.sample_times.length := List.length_pos.mpr hne
    unfold W.Track.add_sample_time
    rw [hlast]
    dsimp only
    by_cases hd : e.sample_delta = d
    · rw [if_pos hd]
      simp only [List.length_append, List.length_dropLast, List.length_cons,
        List.length_nil, hd]
      constructor
      · intro hlen
        omega
      · intro hcon
        exact absurd rfl hcon
    · rw [if_neg hd]
      simp [hd]

/-- Claim C8, witness: the general statement applied to a track whose table
ends with the run `(1, 33)` and a sample of duration 50. -/
theorem c8_time_to_sample_witness :
    ((⟨0, [⟨1, 33⟩], [], [], [], 0, 0, [], []⟩ : W.Track).sample_times.getLast?
      = some ⟨1, 33⟩) ∧
    ((W.Track.add_sample_time ⟨0, [⟨1, 33⟩], [], [], [], 0, 0, [], []⟩
        50).sample_times.length =
      (⟨0, [⟨1, 33⟩], [], [], [], 0, 0, [], []⟩ : W.Track).sample_times.length
        + 1 ↔
      (⟨1, 33⟩ : M.TimeToSampleEntry).sample_delta ≠ 50) :=
  ⟨by decide,
   c8_time_to_sample_runs.2 ⟨0, [⟨1, 33⟩], [], [], [], 0, 0, [], []⟩ 50
     ⟨1, 33⟩ (by decide)⟩

/-! ## Claim C10 — `write_chunk` on an empty chunk -/

/-- Claim C10: `write_chunk` is not a no-op on an empty chunk.  It always
appends the current stream position to the chunk-offset list; when the
pending chunk has zero samples and the last sample-to-chunk run is nonzero
it also appends a run with `samples_per_chunk = 0`; and a track whose final
sample exactly filled a chunk (two samples of duration 1000, each flushed
immediately) ends, after the unconditional `write_chunk` that `finish`
performs, with three chunk offsets for two nonempty chunks, the trailing run
having `samples_per_chunk = 0`. -/
theorem c10_write_chunk_not_noop :
    (∀ (t : W.Track) (out : List Nat),
      (W.Track.write_chunk t out).1.chunk_offsets =
        t.chunk_offsets ++ [out.length % 4294967296]) ∧
    (∀ (t : W.Track) (out : List Nat) (e : M.SampleToChunkEntry),
      t.chunk_sample_count = 0 →
      t.chunk_samples.getLast? = some e →
      e.samples_per_chunk ≠ 0 →
      (W.Track.write_chunk t out).1.chunk_samples =
        t.chunk_samples ++
        [⟨(t.chunk_offsets.length % 4294967296 + 1) % 4294967296, 0, 1⟩]) ∧
    ((W.Track.write_chunk
        (W.Track.write_sample
          (W.Track.write_sample W.Track.empty [] 1000 true [1, 2, 3]).1
          (W.Track.write_sample W.Track.empty [] 1000 true [1, 2, 3]).2
          1000 false [4, 5]).1
        (W.Track.write_sample
          (W.Track.write_sample W.Track.empty [] 1000 true [1, 2, 3]).1
          (W.Track.write_sample W.Track.empty [] 1000 true [1, 2, 3]).2
          1000 false [4, 5]).2).1.chunk_offsets = [0, 3, 5] ∧
     (W.Track.write_chunk
        (W.Track.write_sample
          (W.Track.write_sample W.Track.empty [] 1000 true [1, 2, 3]).1
          (W.Track.write_sample W.Track.empty [] 1000 true [1, 2, 3]).2
          1000 false [4, 5]).1
        (W.Track.write_sample
          (W.Track.write_sample W.Track.empty [] 1000 true [1, 2, 3]).1
          (W.Track.write_sample W.Track.empty [] 1000 true [1, 2, 3]).2
          1000 false [4, 5]).2).1.chunk_samples =
       [⟨1, 1, 1⟩, ⟨3, 0, 1⟩]) := by
  refine ⟨?_, ?_, by decide⟩
  · intro t out
    unfold W.Track.write_chunk W.Track.add_chunk_samples
    cases h : t.chunk_samples.getLast? with
    | none => simp
    | some e =>
      by_cases he : e.samples_per_chunk = t.chunk_sample_count
      · simp [he]
      · simp [he]
  · intro t out e h0 hlast hne
    unfold W.Track.write_chunk W.Track.add_chunk_samples
    rw [hlast, h0]
    have hneq : ¬e.samples_per_chunk = 0 := hne
    simp [hneq]

/-- Claim C10, witness: the zero-run conjunct applied to a track with one
pending empty chunk after one full run. -/
theorem c10_write_chunk_witness :
    ((⟨0, [], [], [], [], 0, 0, [⟨1, 1, 1⟩], [0]⟩ : W.Track).chunk_sample_count
      = 0) ∧
    ((⟨0, [], [], [], [], 0, 0, [⟨1, 1, 1⟩], [0]⟩ :
        W.Track).chunk_samples.getLast? = some ⟨1, 1, 1⟩) ∧
    ((⟨1, 1, 1⟩ : M.SampleToChunkEntry).samples_per_chunk ≠ 0) ∧
    (W.Track.write_chunk ⟨0, [], [], [], [], 0, 0, [⟨1, 1, 1⟩], [0]⟩
        [9]).1.chunk_samples =
      [⟨1, 1, 1⟩] ++ [⟨(([0] : List Nat).length % 4294967296 + 1) % 4294967296,
        0, 1⟩] :=
  ⟨by decide, by decide, by decide,
   c10_write_chunk_not_noop.2.1 ⟨0, [], [], [], [], 0, 0, [⟨1, 1, 1⟩], [0]⟩
     [9] ⟨1, 1, 1⟩ rfl (by decide) (by decide)⟩

end Isobmff

